import Mathlib

/-!
Shallow embedding of the TAI mobility-data import pipeline
(`src/server/apps/mobility/services/generic_importer.py` and
`src/server/apps/mobility/services/tdrive_importer.py`) together with the
relational models they persist to (`src/server/apps/mobility/models.py`).

Modelling conventions:
* Python floats are modelled as `ℚ`.  Every float operation the embedded
  code performs on coordinate/speed values is a comparison or an exact
  decimal-literal conversion, where IEEE-754 doubles and rationals agree
  for all the inputs considered.
* Python dicts of record fields are association lists (`Dict`); a lookup
  takes the last binding, as Python assignment order does.
* Error-message strings are modelled by the inductive `Msg`, one
  constructor per `append` site in the source, carrying the interpolated
  values; likewise `TErrType` models the `error_type` strings of
  `tdrive_importer.py`.
* Database effects are explicit state: a `Store` of `GPSPoint` rows with
  the `unique_together (dataset, entity_id, timestamp)` key of the
  `GPSPoint` model (the dataset is fixed per importer instance and
  omitted), and a `List TPoint` for `TDriveRawPoint` rows.  A raised
  database exception is an `Except.error`.
-/

namespace TAI

/-- A Python value as it occurs in the import pipeline's record dicts:
a string cell, a number, `None`, or a `datetime` instance. -/
inductive PyVal where
  | vStr (s : String)
  | vNum (q : ℚ)
  | vNone
  | vDT (year month day hour minute second microsecond : ℕ)
deriving DecidableEq

/-- A Python dict of record fields (string keys). -/
abbrev Dict := List (String × PyVal)

/-- `d.get(k)`: `none` when the key is absent; the last binding wins,
as it does for Python dict assignment. -/
def dget (d : Dict) (k : String) : Option PyVal :=
  d.foldl (fun acc kv => if kv.1 = k then some kv.2 else acc) none

/-- Whitespace as stripped by `str.strip` / split by `\s`. -/
def isWs (c : Char) : Bool := c = ' ' ∨ c = '\t' ∨ c = '\n' ∨ c = '\r'

/-- Strip whitespace from both ends of a character list. -/
def charTrim (cs : List Char) : List Char :=
  ((cs.dropWhile isWs).reverse.dropWhile isWs).reverse

/-- Python `str.strip()`. -/
def pyStrip (s : String) : String := ⟨charTrim s.toList⟩

/-- Worker for `str.split(sep)` with a non-empty separator
`s0 :: srest`: leftmost match, continue after the separator.  The fuel
argument (seeded with the input's length, which each step strictly
exceeds the remaining input by at least as much) only makes the
recursion structural; the `0` branch is unreachable. -/
def pySplitAux (s0 : Char) (srest : List Char) : ℕ → List Char → List Char → List (List Char)
  | _, [], acc => [acc.reverse]
  | 0, cs, acc => [acc.reverse ++ cs]
  | fuel + 1, c :: rest, acc =>
      if c = s0 ∧ rest.take srest.length = srest then
        acc.reverse :: pySplitAux s0 srest fuel (rest.drop srest.length) []
      else
        pySplitAux s0 srest fuel rest (c :: acc)

/-- Python `str.split(sep)` for an explicit separator.  (Python raises
`ValueError` on an empty separator; no modelled configuration uses
one.) -/
def pySplit (s sep : String) : List String :=
  match sep.toList with
  | [] => [s]
  | s0 :: srest => (pySplitAux s0 srest s.toList.length s.toList []).map (fun cs => ⟨cs⟩)

/-- `d.get(k, default)`. -/
def dgetD (d : Dict) (k : String) (dflt : PyVal) : PyVal :=
  (dget d k).getD dflt

/-- Numeric value of a list of decimal digit characters. -/
def digitsVal (cs : List Char) : ℕ :=
  cs.foldl (fun a c => 10 * a + (c.toNat - 48)) 0

/-- Split a character list into its leading run of digits and the rest. -/
def takeDigits (cs : List Char) : List Char × List Char :=
  (cs.takeWhile Char.isDigit, cs.dropWhile Char.isDigit)

/-- Unsigned decimal mantissa of a float literal: `digits`, `digits.digits`,
`digits.` or `.digits`.  (Built with `mkRat` so the value reduces in the
kernel.) -/
def parseMantissa (cs : List Char) : Option (ℚ × List Char) :=
  let (ip, r1) := takeDigits cs
  match r1 with
  | '.' :: r2 =>
      let (fp, r3) := takeDigits r2
      if ip.isEmpty ∧ fp.isEmpty then none
      else some (mkRat (Int.ofNat (digitsVal ip * 10 ^ fp.length + digitsVal fp)) (10 ^ fp.length), r3)
  | _ => if ip.isEmpty then none else some (mkRat (Int.ofNat (digitsVal ip)) 1, r1)

/-- Optional exponent part `e±digits` of a float literal. -/
def parseExpPart (cs : List Char) : Option (ℤ × List Char) :=
  match cs with
  | 'e' :: r | 'E' :: r =>
      match r with
      | '+' :: r2 =>
          let (ds, r3) := takeDigits r2
          if ds.isEmpty then none else some ((digitsVal ds : ℤ), r3)
      | '-' :: r2 =>
          let (ds, r3) := takeDigits r2
          if ds.isEmpty then none else some (-(digitsVal ds : ℤ), r3)
      | _ =>
          let (ds, r3) := takeDigits r
          if ds.isEmpty then none else some ((digitsVal ds : ℤ), r3)
  | _ => some (0, cs)

/-- Python `float(s)` on a string, modelled over `ℚ`: surrounding
whitespace, an optional sign, a decimal mantissa and an optional
exponent.  (The special values `inf`/`nan`, which `ℚ` cannot represent,
are out of model; no claim exercises them.) -/
def pyFloat? (s : String) : Option ℚ :=
  let cs := charTrim s.toList
  let signed : Option (Bool × List Char) :=
    match cs with
    | '+' :: r => some (false, r)
    | '-' :: r => some (true, r)
    | _ => some (false, cs)
  match signed with
  | some (neg, cs1) =>
      match parseMantissa cs1 with
      | some (m, cs2) =>
          match parseExpPart cs2 with
          | some (e, cs3) =>
              if cs3.isEmpty then
                let mag : ℚ :=
                  if 0 ≤ e then mkRat (m.num * Int.ofNat (10 ^ e.toNat)) m.den
                  else mkRat m.num (m.den * 10 ^ (-e).toNat)
                some (if neg then Rat.neg mag else mag)
              else none
          | none => none
      | none => none
  | none => none

/-- Python `float(x)` on an arbitrary dict value: numbers pass through,
strings are parsed, `None` and `datetime` raise (`none`). -/
def pyFloatVal : PyVal → Option ℚ
  | .vNum q => some q
  | .vStr s => pyFloat? s
  | _ => none

/-- A parsed `datetime.datetime` value. -/
structure DateTime where
  year : ℕ
  month : ℕ
  day : ℕ
  hour : ℕ
  minute : ℕ
  second : ℕ
  microsecond : ℕ
deriving DecidableEq

/-- Gregorian leap-year rule, as used by `datetime`. -/
def isLeap (y : ℕ) : Bool := y % 4 = 0 ∧ (y % 100 ≠ 0 ∨ y % 400 = 0)

/-- Days in a month, as validated by the `datetime` constructor. -/
def daysInMonth (y m : ℕ) : ℕ :=
  if m = 2 then (if isLeap y then 29 else 28)
  else if m = 4 ∨ m = 6 ∨ m = 9 ∨ m = 11 then 30
  else 31

/-- One `strptime` directive of the formats used by the validator. -/
inductive Dir where
  | dY | dm | dd | dH | dM | dS | df
  | lit (c : Char)
deriving DecidableEq

/-- Intermediate field record built while matching a format
(`strptime` defaults: 1900-01-01 00:00:00.0). -/
structure PartialDT where
  y : ℕ := 1900
  mo : ℕ := 1
  dy : ℕ := 1
  hh : ℕ := 0
  mi : ℕ := 0
  ss : ℕ := 0
  us : ℕ := 0
deriving DecidableEq

def digitVal (c : Char) : ℕ := c.toNat - 48

/-- `%m`: the ordered regex alternation `1[0-2]|0[1-9]|[1-9]`
of CPython's `_strptime`. -/
def parseMonth : List Char → Option (ℕ × List Char)
  | [] => none
  | c :: r =>
    if c = '1' then
      match r with
      | c2 :: r2 => if '0' ≤ c2 ∧ c2 ≤ '2' then some (10 + digitVal c2, r2) else some (1, r)
      | [] => some (1, [])
    else if c = '0' then
      match r with
      | c2 :: r2 => if '1' ≤ c2 ∧ c2 ≤ '9' then some (digitVal c2, r2) else none
      | [] => none
    else if '2' ≤ c ∧ c ≤ '9' then some (digitVal c, r)
    else none

/-- `%d`: the ordered alternation `3[01]|[12]\d|0[1-9]|[1-9]`. -/
def parseDay : List Char → Option (ℕ × List Char)
  | [] => none
  | c :: r =>
    if c = '3' then
      match r with
      | c2 :: r2 => if c2 = '0' ∨ c2 = '1' then some (30 + digitVal c2, r2) else some (3, r)
      | [] => some (3, [])
    else if c = '1' ∨ c = '2' then
      match r with
      | c2 :: r2 =>
          if c2.isDigit then some (digitVal c * 10 + digitVal c2, r2) else some (digitVal c, r)
      | [] => some (digitVal c, [])
    else if c = '0' then
      match r with
      | c2 :: r2 => if '1' ≤ c2 ∧ c2 ≤ '9' then some (digitVal c2, r2) else none
      | [] => none
    else if '4' ≤ c ∧ c ≤ '9' then some (digitVal c, r)
    else none

/-- `%H`: the ordered alternation `2[0-3]|[0-1]\d|\d`. -/
def parseHour : List Char → Option (ℕ × List Char)
  | [] => none
  | c :: r =>
    if c = '2' then
      match r with
      | c2 :: r2 => if '0' ≤ c2 ∧ c2 ≤ '3' then some (20 + digitVal c2, r2) else some (2, r)
      | [] => some (2, [])
    else if c = '0' ∨ c = '1' then
      match r with
      | c2 :: r2 =>
          if c2.isDigit then some (digitVal c * 10 + digitVal c2, r2) else some (digitVal c, r)
      | [] => some (digitVal c, [])
    else if c.isDigit then some (digitVal c, r)
    else none

/-- `%M`: the ordered alternation `[0-5]\d|\d`. -/
def parseMinute : List Char → Option (ℕ × List Char)
  | [] => none
  | c :: r =>
    if '0' ≤ c ∧ c ≤ '5' then
      match r with
      | c2 :: r2 =>
          if c2.isDigit then some (digitVal c * 10 + digitVal c2, r2) else some (digitVal c, r)
      | [] => some (digitVal c, [])
    else if c.isDigit then some (digitVal c, r)
    else none

/-- `%S`: the ordered alternation `6[0-1]|[0-5]\d|\d` (leap seconds are
matched by the regex and then rejected by the `datetime` constructor). -/
def parseSecond : List Char → Option (ℕ × List Char)
  | [] => none
  | c :: r =>
    if c = '6' then
      match r with
      | c2 :: r2 => if c2 = '0' ∨ c2 = '1' then some (60 + digitVal c2, r2) else some (6, r)
      | [] => some (6, [])
    else if '0' ≤ c ∧ c ≤ '5' then
      match r with
      | c2 :: r2 =>
          if c2.isDigit then some (digitVal c * 10 + digitVal c2, r2) else some (digitVal c, r)
      | [] => some (digitVal c, [])
    else if c.isDigit then some (digitVal c, r)
    else none

/-- `%f`: one to six digits, right-padded to microseconds. -/
def parseFrac (cs : List Char) : Option (ℕ × List Char) :=
  let ds := (cs.takeWhile Char.isDigit).take 6
  if ds.isEmpty then none
  else some (digitsVal ds * 10 ^ (6 - ds.length), cs.drop ds.length)

/-- Apply one directive.  A whitespace literal matches one or more
whitespace characters and other literals match case-insensitively,
as CPython's `_strptime` compiles the format (`\s+`, `re.IGNORECASE`). -/
def applyDir (d : Dir) (st : PartialDT) (cs : List Char) : Option (PartialDT × List Char) :=
  match d with
  | .dY =>
      match cs with
      | a :: b :: c :: e :: r =>
          if a.isDigit ∧ b.isDigit ∧ c.isDigit ∧ e.isDigit then
            some ({ st with y := digitsVal [a, b, c, e] }, r)
          else none
      | _ => none
  | .dm => (parseMonth cs).map (fun p => ({ st with mo := p.1 }, p.2))
  | .dd => (parseDay cs).map (fun p => ({ st with dy := p.1 }, p.2))
  | .dH => (parseHour cs).map (fun p => ({ st with hh := p.1 }, p.2))
  | .dM => (parseMinute cs).map (fun p => ({ st with mi := p.1 }, p.2))
  | .dS => (parseSecond cs).map (fun p => ({ st with ss := p.1 }, p.2))
  | .df => (parseFrac cs).map (fun p => ({ st with us := p.1 }, p.2))
  | .lit c =>
      if isWs c then
        match cs with
        | c1 :: r => if isWs c1 then some (st, r.dropWhile isWs) else none
        | [] => none
      else
        match cs with
        | c1 :: r => if c1.toLower = c.toLower then some (st, r) else none
        | [] => none

/-- Match a whole format against the input. -/
def runDirs : List Dir → PartialDT → List Char → Option PartialDT
  | [], st, cs => if cs.isEmpty then some st else none
  | d :: ds, st, cs =>
      match applyDir d st cs with
      | some (st2, cs2) => runDirs ds st2 cs2
      | none => none

/-- The `datetime` constructor's validation of the matched fields. -/
def mkDateTime (st : PartialDT) : Option DateTime :=
  if 1 ≤ st.y ∧ 1 ≤ st.mo ∧ st.mo ≤ 12 ∧ 1 ≤ st.dy ∧ st.dy ≤ daysInMonth st.y st.mo ∧
     st.hh ≤ 23 ∧ st.mi ≤ 59 ∧ st.ss ≤ 59 then
    some ⟨st.y, st.mo, st.dy, st.hh, st.mi, st.ss, st.us⟩
  else none

/-- `datetime.strptime(s, fmt)`, returning `none` where Python raises
`ValueError` (no regex match, unconverted trailing data, or constructor
rejection). -/
def strptime (fmt : List Dir) (s : String) : Option DateTime :=
  (runDirs fmt {} s.toList).bind mkDateTime

/-- Format `'%Y-%m-%d %H:%M:%S'`. -/
def fmtYmdHMS : List Dir :=
  [.dY, .lit '-', .dm, .lit '-', .dd, .lit ' ', .dH, .lit ':', .dM, .lit ':', .dS]

/-- Format `'%Y-%m-%dT%H:%M:%S'`. -/
def fmtIsoT : List Dir :=
  [.dY, .lit '-', .dm, .lit '-', .dd, .lit 'T', .dH, .lit ':', .dM, .lit ':', .dS]

/-- Format `'%Y-%m-%d %H:%M:%S.%f'`. -/
def fmtYmdHMSf : List Dir := fmtYmdHMS ++ [.lit '.', .df]

/-- Format `'%d/%m/%Y %H:%M:%S'`. -/
def fmtDMY : List Dir :=
  [.dd, .lit '/', .dm, .lit '/', .dY, .lit ' ', .dH, .lit ':', .dM, .lit ':', .dS]

/-- Format `'%m/%d/%Y %H:%M:%S'`. -/
def fmtMDY : List Dir :=
  [.dm, .lit '/', .dd, .lit '/', .dY, .lit ' ', .dH, .lit ':', .dM, .lit ':', .dS]

/-- The ordered format list of `DataValidator.validate_timestamp`. -/
def tsFormats : List (List Dir) := [fmtYmdHMS, fmtIsoT, fmtYmdHMSf, fmtDMY, fmtMDY]

/-- One validator error or warning message, tagged by its append site in
`generic_importer.py` and carrying the interpolated values. -/
inductive Msg where
  /-- "Longitude {lon} out of valid range [-180, 180]" -/
  | lonRange (lon : ℚ)
  /-- "Latitude {lat} out of valid range [-90, 90]" -/
  | latRange (lat : ℚ)
  /-- "Coordinates ({lon}, {lat}) outside allowed bounds" -/
  | outsideBounds (lon lat : ℚ)
  /-- "Missing longitude or latitude" -/
  | missingLonLat
  /-- "Invalid coordinate format: lon={lon}, lat={lat}" -/
  | badCoordFormat (lon lat : PyVal)
  /-- "Unable to parse timestamp: {timestamp}" -/
  | tsNoParse (s : String)
  /-- "Invalid timestamp type: {type}" -/
  | tsBadType
  /-- "Negative speed: {speed}" -/
  | negSpeed (s : ℚ)
  /-- "Speed {speed} km/h exceeds threshold {threshold}" -/
  | speedExceeds (s thr : ℚ)
  /-- "Invalid speed format: {value}" -/
  | badSpeedFormat (v : PyVal)
deriving DecidableEq

/-- Is the message one of the two hard-range coordinate messages? -/
def Msg.isRangeMsg : Msg → Bool
  | .lonRange _ => true
  | .latRange _ => true
  | _ => false

/-- Is the message the bounding-box message? -/
def Msg.isBoundsMsg : Msg → Bool
  | .outsideBounds _ _ => true
  | _ => false

/-- Is the message one of the three speed messages? -/
def Msg.isSpeedMsg : Msg → Bool
  | .negSpeed _ => true
  | .speedExceeds _ _ => true
  | .badSpeedFormat _ => true
  | _ => false

/-- `DataValidator.__init__` configuration: `strict_mode` (default
`False`), `coordinate_bounds` as `[min_lon, min_lat, max_lon, max_lat]`
(default `None`) and `speed_threshold` (default 200 km/h). -/
structure DataValidator where
  strict_mode : Bool := false
  coordinate_bounds : Option (ℚ × ℚ × ℚ × ℚ) := none
  speed_threshold : ℚ := 200
deriving DecidableEq

/-- `DataValidator.validate_coordinates`: hard WGS84 range checks, then
the custom bounding box, evaluated only when `errors` is still empty;
returns `(is_valid, errors)`. -/
def DataValidator.validate_coordinates (v : DataValidator) (lon lat : ℚ) :
    Bool × List Msg :=
  let e1 : List Msg := if ¬(-180 ≤ lon ∧ lon ≤ 180) then [.lonRange lon] else []
  let e2 : List Msg := e1 ++ (if ¬(-90 ≤ lat ∧ lat ≤ 90) then [.latRange lat] else [])
  let e3 : List Msg :=
    match v.coordinate_bounds with
    | some (minLon, minLat, maxLon, maxLat) =>
        if e2.isEmpty ∧ ¬(minLon ≤ lon ∧ lon ≤ maxLon ∧ minLat ≤ lat ∧ lat ≤ maxLat) then
          e2 ++ [.outsideBounds lon lat]
        else e2
    | none => e2
  (e3.isEmpty, e3)

/-- `DataValidator.validate_timestamp`: a `datetime` passes through, a
string is tried against `tsFormats` where the first matching format
wins, and any other type is invalid; returns `(is_valid, parsed,
error_messages)` (the message list is empty exactly on success, where
the source returns `""`). -/
def validate_timestamp : PyVal → Bool × Option DateTime × List Msg
  | .vDT y mo d h mi s us => (true, some ⟨y, mo, d, h, mi, s, us⟩, [])
  | .vStr s =>
      match tsFormats.findSome? (fun f => strptime f s) with
      | some dt => (true, some dt, [])
      | none => (false, none, [.tsNoParse s])
  | _ => (false, none, [.tsBadType])

/-- `DataValidator.validate_speed`: `None` is OK, negative speed and
speed above the threshold both fail (the message list is empty exactly
on success). -/
def DataValidator.validate_speed (v : DataValidator) (speed : Option ℚ) :
    Bool × List Msg :=
  match speed with
  | none => (true, [])
  | some s =>
      if s < 0 then (false, [.negSpeed s])
      else if s > v.speed_threshold then (false, [.speedExceeds s v.speed_threshold])
      else (true, [])

/-- The `validation_result` dict of `validate_gps_point`: `errors`,
`warnings`, and the `parsed_data` entries as individual options. -/
structure VResult where
  errors : List Msg
  warnings : List Msg
  plon : Option ℚ := none
  plat : Option ℚ := none
  pts : Option DateTime := none
  pspeed : Option ℚ := none
deriving DecidableEq

/-- Body of `DataValidator.validate_gps_point` up to (but not including)
the final strict-mode promotion: missing/unparseable coordinates are
immediate error returns, coordinate errors and timestamp errors extend
`errors`, speed problems extend `warnings`. -/
def DataValidator.validate_core (v : DataValidator) (data : Dict) : VResult :=
  let lonv := dgetD data "longitude" .vNone
  let latv := dgetD data "latitude" .vNone
  if lonv = .vNone ∨ latv = .vNone then
    { errors := [.missingLonLat], warnings := [] }
  else
    match pyFloatVal lonv, pyFloatVal latv with
    | some lon, some lat =>
        let cres := v.validate_coordinates lon lat
        let errs1 : List Msg := if cres.1 then [] else cres.2
        let tres := validate_timestamp (dgetD data "timestamp" .vNone)
        let errs2 := if tres.1 then errs1 else errs1 ++ tres.2.2
        let ptsv : Option DateTime := if tres.1 then tres.2.1 else none
        let sw : List Msg × Option ℚ :=
          match dget data "speed" with
          | some sv =>
              if sv = .vNone then ([], none)
              else
                match pyFloatVal sv with
                | some sp =>
                    let sres := v.validate_speed (some sp)
                    if sres.1 then ([], some sp) else (sres.2, none)
                | none => ([.badSpeedFormat sv], none)
          | none => ([], none)
        { errors := errs2, warnings := sw.1,
          plon := some lon, plat := some lat, pts := ptsv, pspeed := sw.2 }
    | _, _ =>
        { errors := [.badCoordFormat lonv latv], warnings := [] }

/-- `DataValidator.validate_gps_point`: the record is valid when
`errors` is empty, except that in strict mode any warning makes it
invalid and the warnings are appended to `errors`.  (The early error
returns of the source carry no warnings, so routing them through the
promotion step is behaviour-preserving.) -/
def DataValidator.validate_gps_point (v : DataValidator) (data : Dict) :
    Bool × VResult :=
  let r := v.validate_core data
  let is_valid := r.errors.isEmpty
  if v.strict_mode ∧ ¬ r.warnings.isEmpty then
    (false, { r with errors := r.errors ++ r.warnings })
  else
    (is_valid, r)

/-- A `GPSPoint` row as constructed by the generic importer.  The
`dataset` foreign key is the importer's fixed dataset and is omitted;
the model's `unique_together (dataset, entity_id, timestamp)` key is
therefore `(entity_id, timestamp)` here. -/
structure GPSPoint where
  entity_id : PyVal
  timestamp : DateTime
  longitude : ℚ
  latitude : ℚ
  speed : Option ℚ := none
  extra_attributes : Dict := []
  is_valid : Bool := true
deriving DecidableEq

/-- The uniqueness key of a `GPSPoint` row. -/
def gpsKey (p : GPSPoint) : PyVal × DateTime := (p.entity_id, p.timestamp)

/-- The `GPSPoint` table, in insertion order. -/
structure Store where
  rows : List GPSPoint
deriving DecidableEq

/-- Does the store already contain a row with this uniqueness key? -/
def Store.hasKey (s : Store) (k : PyVal × DateTime) : Bool :=
  s.rows.any (fun p => gpsKey p = k)

/-- Does the batch contain two rows sharing a uniqueness key? -/
def hasDupGpsKeys : List GPSPoint → Bool
  | [] => false
  | p :: r => r.any (fun q => gpsKey q = gpsKey p) ∨ hasDupGpsKeys r

/-- `GPSPoint.objects.bulk_create(batch)`: one INSERT statement.  If any
row of the batch collides with a stored row or with another row of the
batch on the unique key, the database raises `IntegrityError` and the
statement inserts nothing; otherwise all rows are appended. -/
def bulk_create (s : Store) (batch : List GPSPoint) : Except Unit Store :=
  if batch.any (fun p => s.hasKey (gpsKey p)) ∨ hasDupGpsKeys batch then .error ()
  else .ok ⟨s.rows ++ batch⟩

/-- `ImportJob.status` values. -/
inductive JobStatus where
  | pending | processing | completed | failed | cancelled
deriving DecidableEq

/-- The `ImportJob` row fields the pipeline mutates (`total_records` is
nullable in the model; timing fields and `error_message` are not needed
by any claim and are omitted). -/
structure ImportJob where
  status : JobStatus := .pending
  total_records : Option ℕ := none
  processed_records : ℕ := 0
  successful_records : ℕ := 0
  failed_records : ℕ := 0
deriving DecidableEq

/-- One dict produced by `csv.DictReader`: cells zipped with the header
row's field names; a short row is padded with `restval = None`.  (Extra
cells beyond the header land under the non-string `restkey` key and are
unreachable from the pipeline's string-keyed lookups.) -/
def zipDict (header row : List String) : Dict :=
  (header.zip row).map (fun kv => (kv.1, PyVal.vStr kv.2)) ++
    (header.drop row.length).map (fun k => (k, PyVal.vNone))

/-- `csv.DictReader` over an already-lexed file (delimiter splitting and
quoting are the `csv` module's concern and outside the model): the
first row becomes the field names, blank rows are skipped, every other
row becomes a dict. -/
def dictReaderRows (rows : List (List String)) : List Dict :=
  match rows with
  | [] => []
  | header :: rest => (rest.filter (fun r => ¬ r.isEmpty)).map (zipDict header)

/-- `MobilityDataImporter._apply_field_mapping`: for each
`standard_field ↦ source_field` pair present in the raw record, bind the
standard field; raw keys neither consumed by the mapping nor shadowing a
mapped standard key are collected as extra attributes (stored by the
source under the `'extra_attributes'` sub-dict, returned here as the
second component). -/
def apply_field_mapping (raw : Dict) (fm : List (String × String)) : Dict × Dict :=
  let mapped := fm.foldl
    (fun acc sf =>
      match dget raw sf.2 with
      | some v => acc ++ [(sf.1, v)]
      | none => acc) []
  let extras := raw.filter
    (fun kv => ¬ (fm.map Prod.snd).any (fun x => x = kv.1) ∧ (dget mapped kv.1).isNone)
  (mapped, extras)

/-- `import_from_csv` configuration: `field_mapping` (default empty,
falsy), `skip_header` (default `True`), `validation` (default `{}`). -/
structure CsvConfig where
  field_mapping : List (String × String) := []
  skip_header : Bool := true
  validation : DataValidator := {}
deriving DecidableEq

/-- The loop state of an import run: the in-memory job object, the
points buffer, the database store, the last `record_count`, and the
sequence of persisted job snapshots (one per `job.save()`). -/
structure RunState where
  job : ImportJob
  buffer : List GPSPoint
  store : Store
  record_count : ℕ
  saves : List ImportJob
deriving DecidableEq

/-- The buffer-flush tail shared verbatim by the loops of
`import_from_csv` and `import_text_file`: once the buffer reaches the
batch size, `bulk_create` it, reset it and persist the job
(`job.save()`); a raised `IntegrityError` escapes as `.error` carrying
the state at the raise (buffer lost, statement rolled back). -/
def flushIfFull (bs : ℕ) (st : RunState) : Except RunState RunState :=
  if bs ≤ st.buffer.length then
    match bulk_create st.store st.buffer with
    | .ok s2 => .ok { st with store := s2, buffer := [], saves := st.saves ++ [st.job] }
    | .error _ => .error st
  else
    .ok st

/-- The body of `import_from_csv`'s `for` loop for row number `i`
(`batch_size` is the importer attribute, 1000 on a fresh instance):
map, validate, count, and flush the buffer once it reaches the batch
size.  A raised `IntegrityError` from `bulk_create` escapes as
`.error` carrying the state at the raise (counters updated, buffer
lost, statement rolled back). -/
def csvProcessRow (v : DataValidator) (fm : List (String × String)) (bs : ℕ)
    (i : ℕ) (row : Dict) (st : RunState) : Except RunState RunState :=
  let st := { st with record_count := i }
  let md := if fm.isEmpty then (row, ([] : Dict)) else apply_field_mapping row fm
  let vres := v.validate_gps_point md.1
  let st :=
    if vres.1 then
      let p : GPSPoint :=
        { entity_id := dgetD md.1 "entity_id" (.vStr "unknown"),
          timestamp := vres.2.pts.getD ⟨1900, 1, 1, 0, 0, 0, 0⟩,
          longitude := vres.2.plon.getD 0,
          latitude := vres.2.plat.getD 0,
          speed := vres.2.pspeed,
          extra_attributes := md.2,
          is_valid := true }
      { st with buffer := st.buffer ++ [p],
                job := { st.job with successful_records := st.job.successful_records + 1 } }
    else
      { st with job := { st.job with failed_records := st.job.failed_records + 1 } }
  let st := { st with job := { st.job with processed_records := st.job.processed_records + 1 } }
  flushIfFull bs st

/-- `for i, row in enumerate(reader, start=1)` over the remaining rows. -/
def csvLoop (v : DataValidator) (fm : List (String × String)) (bs : ℕ) :
    ℕ → List Dict → RunState → Except RunState RunState
  | _, [], st => .ok st
  | i, row :: rest, st =>
      match csvProcessRow v fm bs i row st with
      | .ok st2 => csvLoop v fm bs (i + 1) rest st2
      | .error st2 => .error st2

/-- The finalization shared verbatim by `import_from_csv` and
`import_text_file`: on loop completion flush any remaining buffer
(`if points_buffer: bulk_create(...)`), then mark the job completed and
set `total_records = record_count`; a raised exception (from the loop
or from the final flush) is caught and marks the job failed.  The
`finally` block's `job.save()` persists the final job, appended as the
last snapshot. -/
def finalizeImport (r : Except RunState RunState) : ImportJob × Store × List ImportJob :=
  match r with
  | .ok st =>
      match (if st.buffer.isEmpty then Except.ok st.store else bulk_create st.store st.buffer) with
      | .ok s2 =>
          let jobF := { st.job with status := .completed, total_records := some st.record_count }
          (jobF, s2, st.saves ++ [jobF])
      | .error _ =>
          let jobF : ImportJob := { st.job with status := .failed }
          (jobF, st.store, st.saves ++ [jobF])
  | .error st =>
      let jobF : ImportJob := { st.job with status := .failed }
      (jobF, st.store, st.saves ++ [jobF])

/-- `MobilityDataImporter.import_from_csv` over an already-lexed file.
Note the double skip: `csv.DictReader` consumes the first physical row
as field names, and `skip_header` then discards the first *data* row as
well.  Returns the final job (also persisted by the `finally` save),
the final store, and all persisted job snapshots in order. -/
def import_from_csv (cfg : CsvConfig) (bs : ℕ) (rows : List (List String))
    (store0 : Store) : ImportJob × Store × List ImportJob :=
  let v := cfg.validation
  let job0 : ImportJob := { status := .processing }
  let dicts0 := dictReaderRows rows
  let dicts := if cfg.skip_header then dicts0.drop 1 else dicts0
  let st0 : RunState :=
    { job := job0, buffer := [], store := store0, record_count := 0, saves := [job0] }
  finalizeImport (csvLoop v cfg.field_mapping bs 1 dicts st0)

/-- `import_text_file` configuration: `delimiter` (default `','`) and
`validation` (default `{}`). -/
structure TextConfig where
  delimiter : String := ","
  validation : DataValidator := {}
deriving DecidableEq

/-- The body of `import_text_file`'s `for` loop for line number `i`:
a blank line is skipped after `record_count` is set; a line with fewer
than 4 fields logs a parsing error and `continue`s — note that this
path increments `failed_records` but, because of the `continue`,
skips the `processed_records` increment at the bottom of the loop.
(The inner `except` clause guards Python-level surprises none of the
modelled operations can raise.) -/
def textProcessLine (v : DataValidator) (delim : String) (bs : ℕ)
    (i : ℕ) (line : String) (st : RunState) : Except RunState RunState :=
  let st := { st with record_count := i }
  let l := pyStrip line
  if l = "" then .ok st
  else
    let parts := (pySplit l delim).map pyStrip
    match parts with
    | p0 :: p1 :: p2 :: p3 :: _ =>
        let data : Dict :=
          [("entity_id", .vStr p0), ("timestamp", .vStr p1),
           ("longitude", .vStr p2), ("latitude", .vStr p3)]
        let vres := v.validate_gps_point data
        let st :=
          if vres.1 then
            let p : GPSPoint :=
              { entity_id := .vStr p0,
                timestamp := vres.2.pts.getD ⟨1900, 1, 1, 0, 0, 0, 0⟩,
                longitude := vres.2.plon.getD 0,
                latitude := vres.2.plat.getD 0,
                is_valid := true }
            { st with buffer := st.buffer ++ [p],
                      job := { st.job with successful_records := st.job.successful_records + 1 } }
          else
            { st with job := { st.job with failed_records := st.job.failed_records + 1 } }
        let st := { st with job := { st.job with processed_records := st.job.processed_records + 1 } }
        flushIfFull bs st
    | _ =>
        .ok { st with job := { st.job with failed_records := st.job.failed_records + 1 } }

/-- `for i, line in enumerate(f, start=1)`. -/
def textLoop (v : DataValidator) (delim : String) (bs : ℕ) :
    ℕ → List String → RunState → Except RunState RunState
  | _, [], st => .ok st
  | i, line :: rest, st =>
      match textProcessLine v delim bs i line st with
      | .ok st2 => textLoop v delim bs (i + 1) rest st2
      | .error st2 => .error st2

/-- `MobilityDataImporter.import_text_file` over the file's lines
(without terminators). -/
def import_text_file (cfg : TextConfig) (bs : ℕ) (lines : List String)
    (store0 : Store) : ImportJob × Store × List ImportJob :=
  let v := cfg.validation
  let job0 : ImportJob := { status := .processing }
  let st0 : RunState :=
    { job := job0, buffer := [], store := store0, record_count := 0, saves := [job0] }
  finalizeImport (textLoop v cfg.delimiter bs 1 lines st0)

/-- A Python exception relevant to the directory-import surface. -/
inductive PyErr where
  | notImplementedError
deriving DecidableEq

/-- `MobilityDataImporter.import_directory`: the body is a TODO and
unconditionally raises `NotImplementedError`. -/
def mobility_import_directory (directory_path : String)
    (config : Option (String × Option ℕ × Bool)) : Except PyErr (List ImportJob) :=
  .error .notImplementedError

/-- The `error_type` strings of `tdrive_importer.py`'s validation-error
log. -/
inductive TErrType where
  | FORMAT_ERROR | TIMESTAMP_ERROR | COORDINATE_ERROR | VALIDATION_ERROR | UNKNOWN_ERROR
deriving DecidableEq

/-- One `validation_notes` fragment, tagged by its append site in
`_validate_and_parse_line` (plus the blanket note the pandas path
writes). -/
inductive TNote where
  /-- "Longitude {l} out of range" -/
  | lonRange (q : ℚ)
  /-- "Latitude {l} out of range" -/
  | latRange (q : ℚ)
  /-- "Longitude {l} outside Beijing bbox" -/
  | lonBbox (q : ℚ)
  /-- "Latitude {l} outside Beijing bbox" -/
  | latBbox (q : ℚ)
  /-- "Failed coordinate or timestamp validation" -/
  | pandasInvalid
deriving DecidableEq

/-- A `TDriveRawPoint` row.  The timestamp is optional because the
pandas path can carry a coerced `NaT`; the line-by-line path always
stores a parsed datetime.  The table is unmanaged and declares no
uniqueness constraint. -/
structure TPoint where
  taxi_id : String
  timestamp : Option DateTime
  longitude : ℚ
  latitude : ℚ
  source_file : String
  is_valid : Bool
  validation_notes : List TNote := []
deriving DecidableEq

/-- `TDriveImporter.__init__` flags. -/
structure TDriveCfg where
  strict_validation : Bool := false
  use_beijing_bbox : Bool := true
deriving DecidableEq

/-- Which exceptions the backing store raises: whether a given
`bulk_create` call fails as a whole, and whether a given single-row
`save()` fails.  Instances model an always-healthy store, an enforced
uniqueness constraint, or a store outage. -/
structure TStoreModel where
  bulkFails : List TPoint → List TPoint → Bool
  saveFails : List TPoint → TPoint → Bool

/-- A store that never raises (no constraint on `TDriveRawPoint`,
healthy database). -/
def honestStore : TStoreModel := ⟨fun _ _ => false, fun _ _ => false⟩

/-- A store whose write path is down: every insert raises. -/
def failingStore : TStoreModel := ⟨fun _ _ => true, fun _ _ => true⟩

/-- `TDriveImporter._bulk_insert_points`: try `bulk_create`; on any
exception fall back to saving the points one by one, silently skipping
every point whose `save()` raises.  No exception ever escapes. -/
def tdrive_bulk_insert_points (m : TStoreModel) (store : List TPoint)
    (batch : List TPoint) : List TPoint :=
  if m.bulkFails store batch then
    batch.foldl (fun s p => if m.saveFails s p then s else s ++ [p]) store
  else store ++ batch

/-- The Beijing bounding box constants of `TDriveImporter`. -/
def BEIJING_MIN_LON : ℚ := mkRat 577 5
def BEIJING_MAX_LON : ℚ := mkRat 235 2
def BEIJING_MIN_LAT : ℚ := mkRat 197 5
def BEIJING_MAX_LAT : ℚ := mkRat 411 10

/-- Result of `_validate_and_parse_line`: an accepted point, or a
rejection that was logged under the given `error_type`.  (In the source
every `{'valid': False}` return is preceded by exactly one
`_log_validation_error` call, and every `{'valid': True}` return
carries a point and logs nothing.) -/
inductive TLineResult where
  | accepted (p : TPoint)
  | rejected (t : TErrType)
deriving DecidableEq

/-- `TDriveImporter._validate_and_parse_line`: field count, timestamp
parse (only `'%Y-%m-%d %H:%M:%S'`), float parse, then global WGS84
range and contextual Beijing-bbox checks accumulated into one list;
a non-empty list rejects in strict mode (`VALIDATION_ERROR`) and in
permissive mode yields a point flagged `is_valid=False`. -/
def validate_and_parse_line (cfg : TDriveCfg) (row : List String)
    (taxi_id : String) (file_name : String) : TLineResult :=
  match row with
  | r0 :: r1 :: r2 :: r3 :: _ =>
      let _ := pyStrip r0
      let timestamp_str := pyStrip r1
      let longitude_str := pyStrip r2
      let latitude_str := pyStrip r3
      match strptime fmtYmdHMS timestamp_str with
      | none => .rejected .TIMESTAMP_ERROR
      | some ts =>
          match pyFloat? longitude_str, pyFloat? latitude_str with
          | some lon, some lat =>
              let e1 : List TNote :=
                if ¬(-180 ≤ lon ∧ lon ≤ 180) then [.lonRange lon] else []
              let e2 : List TNote :=
                e1 ++ (if ¬(-90 ≤ lat ∧ lat ≤ 90) then [.latRange lat] else [])
              let e3 : List TNote :=
                if cfg.use_beijing_bbox then
                  (e2 ++ (if ¬(BEIJING_MIN_LON ≤ lon ∧ lon ≤ BEIJING_MAX_LON) then [.lonBbox lon] else []))
                    ++ (if ¬(BEIJING_MIN_LAT ≤ lat ∧ lat ≤ BEIJING_MAX_LAT) then [.latBbox lat] else [])
                else e2
              if ¬ e3.isEmpty then
                if cfg.strict_validation then .rejected .VALIDATION_ERROR
                else
                  .accepted
                    { taxi_id := taxi_id, timestamp := some ts, longitude := lon,
                      latitude := lat, source_file := file_name, is_valid := false,
                      validation_notes := e3 }
              else
                .accepted
                  { taxi_id := taxi_id, timestamp := some ts, longitude := lon,
                    latitude := lat, source_file := file_name, is_valid := true }
          | _, _ => .rejected .COORDINATE_ERROR
  | _ => .rejected .FORMAT_ERROR

/-- The stats dict of the per-file processors. -/
structure TStats where
  total : ℕ := 0
  successful : ℕ := 0
  failed : ℕ := 0
deriving DecidableEq

/-- `csv.reader` on one physical line (the T-Drive files are plain
comma-separated, unquoted): a blank line yields the empty row. -/
def csvRow (line : String) : List String :=
  if line = "" then [] else pySplit line ","

/-- The loop of `TDriveImporter._process_file`: count every line,
validate, buffer accepted points, flush (adding the flushed batch's
full length to `successful` regardless of the store's outcome) at the
batch size and once more at the end. -/
def tdriveLoop (cfg : TDriveCfg) (m : TStoreModel) (bs : ℕ) (taxi fn : String) :
    List String → TStats → List TPoint → List TPoint → TStats × List TPoint
  | [], stats, batch, store =>
      if batch.isEmpty then (stats, store)
      else ({ stats with successful := stats.successful + batch.length },
            tdrive_bulk_insert_points m store batch)
  | line :: rest, stats, batch, store =>
      let stats := { stats with total := stats.total + 1 }
      match validate_and_parse_line cfg (csvRow line) taxi fn with
      | .accepted p =>
          let batch := batch ++ [p]
          if bs ≤ batch.length then
            tdriveLoop cfg m bs taxi fn rest
              { stats with successful := stats.successful + batch.length }
              [] (tdrive_bulk_insert_points m store batch)
          else
            tdriveLoop cfg m bs taxi fn rest stats batch store
      | .rejected _ =>
          tdriveLoop cfg m bs taxi fn rest { stats with failed := stats.failed + 1 } batch store

/-- `TDriveImporter._process_file` (`BATCH_SIZE` is the class constant,
1000; kept as a parameter `bs` of the loop). -/
def tdrive_process_file (cfg : TDriveCfg) (m : TStoreModel) (bs : ℕ)
    (store : List TPoint) (lines : List String) (taxi fn : String) :
    TStats × List TPoint :=
  tdriveLoop cfg m bs taxi fn lines {} [] store

/-- One row of the pandas DataFrame of `_process_file_pandas`. -/
structure PdRow where
  taxi_id_file : String
  ts : String
  lon : ℚ
  lat : ℚ
deriving DecidableEq

/-- `pd.read_csv(..., names=[...], dtype={...float...})` on the file's
lines: blank lines skipped, each line must split into exactly four
fields with float-parseable coordinates, otherwise `read_csv` raises
and the caller falls back to the line-by-line path.  (Pandas would
instead coerce a few NA tokens and pad short rows; those inputs are out
of model and exercised by no claim.) -/
def pandasRead (lines : List String) : Option (List PdRow) :=
  (lines.filter (fun l => l ≠ "")).mapM
    (fun l =>
      match pySplit l "," with
      | [a, b, c, d] =>
          match pyFloat? c, pyFloat? d with
          | some lon, some lat => some ⟨a, b, lon, lat⟩
          | _, _ => none
      | _ => none)

/-- Vectorized validity mask of `_process_file_pandas`: WGS84 range,
Beijing bbox when enabled, and a parseable timestamp. -/
def pdValidMask (cfg : TDriveCfg) (r : PdRow) : Bool :=
  (-180 ≤ r.lon ∧ r.lon ≤ 180 ∧ -90 ≤ r.lat ∧ r.lat ≤ 90) ∧
  (cfg.use_beijing_bbox →
    (BEIJING_MIN_LON ≤ r.lon ∧ r.lon ≤ BEIJING_MAX_LON ∧
     BEIJING_MIN_LAT ≤ r.lat ∧ r.lat ≤ BEIJING_MAX_LAT)) ∧
  (strptime fmtYmdHMS r.ts).isSome

/-- Insert points in slices of `BATCH_SIZE` (1000), each through
`_bulk_insert_points`.  The fuel argument (seeded with the list's
length) only makes the recursion structural; its `0` branch is
unreachable for any non-empty list. -/
def tdriveInsertAllAux (m : TStoreModel) : ℕ → List TPoint → List TPoint → List TPoint
  | _, store, [] => store
  | 0, store, pts => tdrive_bulk_insert_points m store pts
  | fuel + 1, store, pts =>
      tdriveInsertAllAux m fuel (tdrive_bulk_insert_points m store (pts.take 1000)) (pts.drop 1000)

/-- `for i in range(0, len(points), BATCH_SIZE): self._bulk_insert_points(...)`. -/
def tdriveInsertAll (m : TStoreModel) (store : List TPoint) (pts : List TPoint) :
    List TPoint :=
  tdriveInsertAllAux m pts.length store pts

/-- `TDriveImporter._process_file_pandas` after a successful read:
coerce timestamps, apply the mask; strict mode keeps only the valid
rows and counts the rest as failed, permissive mode keeps every row
(invalid ones flagged with the blanket note) and counts zero failures;
bulk-insert and report `successful = len(points)`. -/
def tdrive_process_pandas (cfg : TDriveCfg) (m : TStoreModel)
    (store : List TPoint) (rows : List PdRow) (taxi fn : String) :
    TStats × List TPoint :=
  let mk : PdRow → TPoint := fun r =>
    { taxi_id := taxi, timestamp := strptime fmtYmdHMS r.ts, longitude := r.lon,
      latitude := r.lat, source_file := fn, is_valid := pdValidMask cfg r,
      validation_notes := if pdValidMask cfg r then [] else [.pandasInvalid] }
  let points : List TPoint :=
    if cfg.strict_validation then
      (rows.filter (fun r => pdValidMask cfg r)).map
        (fun r => { mk r with is_valid := true, validation_notes := [] })
    else rows.map mk
  let nFailed : ℕ :=
    if cfg.strict_validation then (rows.filter (fun r => ¬ pdValidMask cfg r)).length else 0
  ({ total := rows.length, successful := points.length, failed := nFailed },
   tdriveInsertAll m store points)

/-- A file as the importer can encounter it. -/
inductive TFileState where
  | missing
  | unreadable
  | readable (lines : List String)
deriving DecidableEq

/-- `TDriveImportLog.status` values the pipeline writes. -/
inductive TLogStatus where
  | processing | completed | failed
deriving DecidableEq

/-- The `TDriveImportLog` fields the pipeline writes. -/
structure TImportLog where
  status : TLogStatus
  total_lines : Option ℕ := none
  successful_imports : ℕ := 0
  failed_imports : ℕ := 0
deriving DecidableEq

/-- The result dict of `TDriveImporter.import_file`. -/
structure TFileResult where
  success : Bool
  total_lines : ℕ := 0
  successful : ℕ := 0
  failed : ℕ := 0
deriving DecidableEq

/-- `'.'.join(parts)`. -/
def joinWith (sep : String) : List String → String
  | [] => ""
  | [x] => x
  | x :: rest => x ++ sep ++ joinWith sep rest

/-- `os.path.splitext(file_name)[0]`. -/
def stemOf (s : String) : String :=
  match pySplit s "." with
  | [x] => x
  | parts => joinWith "." parts.dropLast

/-- `TDriveImporter.import_file` (with the default `use_pandas=True`):
a missing file raises `FileNotFoundError` before any log exists
(`.error`); an unreadable file makes both the pandas read and the
line-by-line fallback raise, so the surrounding `except` marks the log
failed, rolls the transaction back and returns `success=False`; a
readable file goes through the pandas path, falling back to
`_process_file` when the read raises, and always completes. -/
def tdrive_import_file (cfg : TDriveCfg) (m : TStoreModel) (store : List TPoint)
    (f : TFileState) (name : String) :
    Except Unit (TFileResult × TImportLog × List TPoint) :=
  match f with
  | .missing => .error ()
  | .unreadable =>
      .ok ({ success := false }, { status := .failed }, store)
  | .readable lines =>
      let taxi := stemOf name
      let r :=
        match pandasRead lines with
        | some rows => tdrive_process_pandas cfg m store rows taxi name
        | none => tdrive_process_file cfg m 1000 store lines taxi name
      .ok ({ success := true, total_lines := r.1.total, successful := r.1.successful,
             failed := r.1.failed },
           { status := .completed, total_lines := some r.1.total,
             successful_imports := r.1.successful, failed_imports := r.1.failed },
           r.2)

/-- `txt_files[:max_files]` with Python truthiness: `max_files=None`
and `max_files=0` are both falsy and leave the list untouched. -/
def selectFiles (files : List (String × TFileState)) (mf : Option ℕ) :
    List (String × TFileState) :=
  match mf with
  | none => files
  | some k => if k = 0 then files else files.take k

/-- The batch-summary dict of `TDriveImporter.import_directory`. -/
structure TDirResult where
  success : Bool
  total_files : ℕ
  successful_files : ℕ
  failed_files : ℕ
  total_points : ℕ
  failed_points : ℕ
deriving DecidableEq

/-- Directory-loop accumulator. -/
structure TDirAcc where
  successful_files : ℕ := 0
  failed_files : ℕ := 0
  total_points : ℕ := 0
  failed_points : ℕ := 0
deriving DecidableEq

/-- The per-file loop of `import_directory`: a raised
`FileNotFoundError` is caught and counted as a failed file; a returned
`success=False` likewise; a successful file adds its point counts. -/
def tdriveDirLoop (cfg : TDriveCfg) (m : TStoreModel) :
    List (String × TFileState) → TDirAcc → List TPoint → TDirAcc × List TPoint
  | [], acc, store => (acc, store)
  | f :: rest, acc, store =>
      match tdrive_import_file cfg m store f.2 f.1 with
      | .ok (r, _, store2) =>
          if r.success then
            tdriveDirLoop cfg m rest
              { acc with successful_files := acc.successful_files + 1,
                         total_points := acc.total_points + r.successful,
                         failed_points := acc.failed_points + r.failed } store2
          else
            tdriveDirLoop cfg m rest
              { acc with failed_files := acc.failed_files + 1 } store2
      | .error _ =>
          tdriveDirLoop cfg m rest { acc with failed_files := acc.failed_files + 1 } store

/-- `TDriveImporter.import_directory` over the sorted glob listing. -/
def tdrive_import_directory (cfg : TDriveCfg) (m : TStoreModel)
    (store : List TPoint) (files : List (String × TFileState)) (mf : Option ℕ) :
    TDirResult × List TPoint :=
  let sel := selectFiles files mf
  let r := tdriveDirLoop cfg m sel {} store
  ({ success := r.1.failed_files = 0, total_files := sel.length,
     successful_files := r.1.successful_files, failed_files := r.1.failed_files,
     total_points := r.1.total_points, failed_points := r.1.failed_points },
   r.2)

/-- The natural uniqueness key of a `TDriveRawPoint` row (taxi and
instant).  The deployed table declares no uniqueness constraint; this
key is used to model a store that *does* enforce one, to state what
`_bulk_insert_points`'s fallback achieves when the store raises
uniqueness errors. -/
def tdriveKey (p : TPoint) : String × Option DateTime := (p.taxi_id, p.timestamp)

/-- Is a row with this point's key already stored? -/
def tKeyMem (store : List TPoint) (p : TPoint) : Bool :=
  store.any (fun q => tdriveKey q = tdriveKey p)

/-- Does the batch repeat a key internally? -/
def hasDupTKeys : List TPoint → Bool
  | [] => false
  | p :: r => r.any (fun q => tdriveKey q = tdriveKey p) || hasDupTKeys r

/-- A store that enforces the uniqueness key: `bulk_create` raises when
any batch row collides with a stored row or another batch row (the
whole statement rolls back), and a single `save()` raises exactly on a
key collision. -/
def uniqueKeyStore : TStoreModel :=
  { bulkFails := fun st batch => batch.any (tKeyMem st) || hasDupTKeys batch,
    saveFails := fun st p => tKeyMem st p }

/-- Is this line accepted by `_validate_and_parse_line` (and hence
buffered for insertion)? -/
def lineAccepted (cfg : TDriveCfg) (taxi fn : String) (line : String) : Bool :=
  match validate_and_parse_line cfg (csvRow line) taxi fn with
  | .accepted _ => true
  | .rejected _ => false

/-- Does `import_file` succeed on this file state? -/
def tdriveFileOk : TFileState → Bool
  | .readable _ => true
  | _ => false

/-- The points a file contributes to the store under a never-failing
store, computed from an empty store. -/
def tdriveFileDelta (cfg : TDriveCfg) (f : String × TFileState) : List TPoint :=
  match tdrive_import_file cfg honestStore [] f.2 f.1 with
  | .ok r => r.2.2
  | .error _ => []

/-!  Concrete inputs used by counterexamples and witnesses. -/

/-- A `GPSPoint` already stored before the C2 run: entity `"1"` at
`2008-02-02 13:30:39`. -/
def preStoredPoint : GPSPoint :=
  { entity_id := .vStr "1", timestamp := ⟨2008, 2, 2, 13, 30, 39, 0⟩,
    longitude := mkRat 233 2, latitude := mkRat 399 10 }

/-- A store holding `preStoredPoint`. -/
def preStore : Store := ⟨[preStoredPoint]⟩

/-- A CSV whose first data row duplicates `preStoredPoint`'s key and
whose second is fresh. -/
def dupRows : List (List String) :=
  [["entity_id", "timestamp", "longitude", "latitude"],
   ["1", "2008-02-02 13:30:39", "116.51172", "39.92123"],
   ["2", "2008-02-02 13:30:40", "116.5", "39.9"]]

/-- `import_from_csv` configuration keeping every data row. -/
def noSkipCfg : CsvConfig := { skip_header := false }

/-- A CSV with a header row and two valid data rows. -/
def headerAndTwoRows : List (List String) :=
  [["entity_id", "timestamp", "longitude", "latitude"],
   ["1", "2008-02-02 13:30:39", "116.51172", "39.92123"],
   ["2", "2008-02-02 13:30:40", "116.5", "39.9"]]

/-- A record whose only defect is a negative speed. -/
def negSpeedData : Dict :=
  [("longitude", .vStr "116.4"), ("latitude", .vStr "39.9"),
   ("timestamp", .vStr "2008-02-02 13:30:39"), ("speed", .vNum (-5))]

/-- A record whose only defect is a speed above the default threshold. -/
def fastSpeedData : Dict :=
  [("longitude", .vStr "116.4"), ("latitude", .vStr "39.9"),
   ("timestamp", .vStr "2008-02-02 13:30:39"), ("speed", .vNum 250)]

/-- The spec's Paris-style bounding box `[2.25, 48.82, 2.42, 48.90]`. -/
def parisValidator : DataValidator :=
  { coordinate_bounds := some (mkRat 9 4, mkRat 2441 50, mkRat 121 50, mkRat 489 10) }

/-- A record at `(2.5, 48.85)`: inside WGS84, outside the Paris box. -/
def parisOutsideData : Dict :=
  [("longitude", .vStr "2.5"), ("latitude", .vStr "48.85"),
   ("timestamp", .vStr "2024-01-15 08:30:00")]

/-- Zero-pad to two digits, as `'%02d'` does. -/
def pad2 (n : ℕ) : String := if n < 10 then "0" ++ toString n else toString n

/-- `datetime.strftime('%Y-%m-%d %H:%M:%S')` for four-digit years. -/
def formatYmdHMS (dt : DateTime) : String :=
  toString dt.year ++ "-" ++ pad2 dt.month ++ "-" ++ pad2 dt.day ++ " " ++
    pad2 dt.hour ++ ":" ++ pad2 dt.minute ++ ":" ++ pad2 dt.second

/-- Loop-state facts maintained by the CSV import after processing row
`i`: the balance equation, `processed = record_count`, balanced
snapshots, and the row counter. -/
def CsvStep (st2 : RunState) (i : ℕ) : Prop :=
  st2.job.processed_records = st2.job.successful_records + st2.job.failed_records ∧
  st2.job.processed_records = st2.record_count ∧
  (∀ j ∈ st2.saves, j.processed_records = j.successful_records + j.failed_records) ∧
  st2.record_count = i

/-- Loop-state facts maintained by the text import (which does *not*
keep `processed = record_count`: blank lines break it). -/
def TextStep (st2 : RunState) (i : ℕ) : Prop :=
  st2.job.processed_records = st2.job.successful_records + st2.job.failed_records ∧
  (∀ j ∈ st2.saves, j.processed_records = j.successful_records + j.failed_records) ∧
  st2.record_count = i

/-- A CSV with a skipped junk row and two valid data rows, used to
exercise a mid-run checkpoint with batch size 1. -/
def rowsW : List (List String) :=
  [["entity_id", "timestamp", "longitude", "latitude"],
   ["0", "x", "x", "x"],
   ["1", "2008-02-02 13:30:39", "116.51172", "39.92123"],
   ["2", "2008-02-02 13:30:40", "116.5", "39.9"]]

/-- One well-formed T-Drive line. -/
def linesW : List String := ["1,2008-02-02 13:30:39,116.51172,39.92123"]

/-- The first per-batch checkpoint of the `rowsW` run with batch size 1. -/
def jW : ImportJob :=
  { status := .processing, total_records := none, processed_records := 1,
    successful_records := 1, failed_records := 0 }

/-- A stored T-Drive point. -/
def tP1 : TPoint :=
  { taxi_id := "1", timestamp := some ⟨2008, 2, 2, 13, 30, 39, 0⟩,
    longitude := mkRat 233 2, latitude := mkRat 399 10,
    source_file := "1.txt", is_valid := true }

/-- A different row carrying `tP1`'s uniqueness key. -/
def tP1dup : TPoint := { tP1 with longitude := mkRat 117 1 }

/-- A fresh row. -/
def tP2 : TPoint := { tP1 with timestamp := some ⟨2008, 2, 2, 13, 30, 40, 0⟩ }

/-- A store holding `tP1`, and a batch with one duplicate of it. -/
def tStoreW : List TPoint := [tP1]

/-- A batch whose first row collides with `tStoreW` and whose second is
fresh. -/
def tBatchW : List TPoint := [tP1dup, tP2]

/-- A record with no errors and no warnings. -/
def cleanData : Dict :=
  [("longitude", .vStr "116.4"), ("latitude", .vStr "39.9"),
   ("timestamp", .vStr "2008-02-02 13:30:39")]

/-- Two well-formed T-Drive lines. -/
def twoGoodLines : List String :=
  ["1,2008-02-02 13:30:39,116.51172,39.92123", "1,2008-02-02 13:30:40,116.5,39.9"]

/-- A three-file directory whose middle file is unreadable. -/
def dir3 : List (String × TFileState) :=
  [("1.txt", .readable ["1,2008-02-02 13:30:39,116.51172,39.92123"]),
   ("2.txt", .unreadable),
   ("3.txt", .readable ["3,2008-02-02 13:30:41,116.5,39.9",
                        "3,2008-02-02 13:30:42,200.0,39.9"])]

/-!  Helper lemmas about the validator. -/

/-- `validate_core` never reads `strict_mode`. -/
lemma validate_core_strict (s1 s2 : Bool) (b : Option (ℚ × ℚ × ℚ × ℚ)) (t : ℚ)
    (data : Dict) :
    DataValidator.validate_core ⟨s1, b, t⟩ data = DataValidator.validate_core ⟨s2, b, t⟩ data :=
  rfl

/-- In permissive mode `validate_gps_point` is `validate_core` plus the
zero-errors test. -/
lemma validate_gps_point_permissive (b : Option (ℚ × ℚ × ℚ × ℚ)) (t : ℚ) (data : Dict) :
    (⟨false, b, t⟩ : DataValidator).validate_gps_point data =
      ((DataValidator.validate_core ⟨false, b, t⟩ data).errors.isEmpty,
        DataValidator.validate_core ⟨false, b, t⟩ data) := by
  unfold DataValidator.validate_gps_point
  simp only [Bool.false_eq_true, false_and, if_false]

/-- In strict mode `validate_gps_point` is `validate_core` plus the
warning-promotion step (the core being `strict_mode`-independent). -/
lemma validate_gps_point_strict_eq (b : Option (ℚ × ℚ × ℚ × ℚ)) (t : ℚ) (data : Dict) :
    (⟨true, b, t⟩ : DataValidator).validate_gps_point data =
      (if ¬ (DataValidator.validate_core ⟨false, b, t⟩ data).warnings.isEmpty then
        (false, { DataValidator.validate_core ⟨false, b, t⟩ data with
                    errors := (DataValidator.validate_core ⟨false, b, t⟩ data).errors ++
                      (DataValidator.validate_core ⟨false, b, t⟩ data).warnings })
       else ((DataValidator.validate_core ⟨false, b, t⟩ data).errors.isEmpty,
             DataValidator.validate_core ⟨false, b, t⟩ data)) := by
  unfold DataValidator.validate_gps_point
  rw [validate_core_strict true false b t data]
  simp only [true_and]

/-- An accepted record has an empty error list (in either mode). -/
lemma accepted_errors_nil (v : DataValidator) (data : Dict)
    (h : (v.validate_gps_point data).1 = true) :
    (v.validate_gps_point data).2.errors = (v.validate_core data).errors ∧
      (v.validate_core data).errors = [] := by
  by_cases hc : v.strict_mode = true ∧ ¬ (v.validate_core data).warnings.isEmpty = true
  · simp [DataValidator.validate_gps_point, hc] at h
  · simp only [DataValidator.validate_gps_point, if_neg hc] at h ⊢
    exact ⟨trivial, by simpa [List.isEmpty_iff] using h⟩

/-- The error list built by `validate_coordinates` contains no speed
message. -/
lemma validate_coordinates_no_speed (v : DataValidator) (lon lat : ℚ) :
    ((v.validate_coordinates lon lat).2.any Msg.isSpeedMsg) = false := by
  unfold DataValidator.validate_coordinates
  rcases hb : v.coordinate_bounds with _ | ⟨a, b, c, d⟩ <;>
    split_ifs <;> simp_all [Msg.isSpeedMsg]

/-- The messages produced by `validate_timestamp` are never speed
messages. -/
lemma validate_timestamp_no_speed (pv : PyVal) :
    ((validate_timestamp pv).2.2.any Msg.isSpeedMsg) = false := by
  cases pv <;> simp [validate_timestamp, Msg.isSpeedMsg]
  rename_i s
  rcases h : tsFormats.findSome? (fun f => strptime f s) with _ | dt <;>
    simp [h, Msg.isSpeedMsg]

/-- `validate_core` routes speed problems into warnings only: its error
list never contains a speed message. -/
lemma validate_core_errors_no_speed (v : DataValidator) (data : Dict) :
    ((v.validate_core data).errors.any Msg.isSpeedMsg) = false := by
  unfold DataValidator.validate_core
  by_cases hmiss : dgetD data "longitude" PyVal.vNone = PyVal.vNone ∨
      dgetD data "latitude" PyVal.vNone = PyVal.vNone
  · simp [hmiss, Msg.isSpeedMsg]
  · simp only [if_neg hmiss]
    rcases hlon : pyFloatVal (dgetD data "longitude" PyVal.vNone) with _ | lon <;>
      rcases hlat : pyFloatVal (dgetD data "latitude" PyVal.vNone) with _ | lat <;>
        simp only []
    · simp [Msg.isSpeedMsg]
    · simp [Msg.isSpeedMsg]
    · simp [Msg.isSpeedMsg]
    · rcases htv : (validate_timestamp (dgetD data "timestamp" PyVal.vNone)).1 <;>
        rcases hcv : (v.validate_coordinates lon lat).1 <;>
          simp [htv, hcv, List.any_append, validate_coordinates_no_speed,
            validate_timestamp_no_speed (dgetD data "timestamp" PyVal.vNone)]

/-!  Claim theorems. -/

/-- C3.  For every mapped record and base configuration,
`validate_gps_point` accepts in permissive mode exactly the records
with zero errors; in strict mode it accepts exactly the records with
zero errors and zero warnings (warnings promoted to errors); hence
flipping `strict_mode` from false to true never accepts a record that
permissive mode rejected. -/
theorem validate_gps_point_mode_monotone (b : Option (ℚ × ℚ × ℚ × ℚ)) (t : ℚ)
    (data : Dict) :
    (((⟨false, b, t⟩ : DataValidator).validate_gps_point data).1 = true ↔
       ((⟨false, b, t⟩ : DataValidator).validate_gps_point data).2.errors = []) ∧
    (((⟨true, b, t⟩ : DataValidator).validate_gps_point data).1 = true ↔
       (((⟨false, b, t⟩ : DataValidator).validate_gps_point data).2.errors = [] ∧
        ((⟨false, b, t⟩ : DataValidator).validate_gps_point data).2.warnings = [])) ∧
    (((⟨true, b, t⟩ : DataValidator).validate_gps_point data).1 = true →
       ((⟨false, b, t⟩ : DataValidator).validate_gps_point data).1 = true) := by
  rw [validate_gps_point_permissive, validate_gps_point_strict_eq]
  by_cases hw : (DataValidator.validate_core ⟨false, b, t⟩ data).warnings.isEmpty
  · have hw2 : (DataValidator.validate_core ⟨false, b, t⟩ data).warnings = [] := by
      simpa [List.isEmpty_iff] using hw
    simp [hw, hw2, List.isEmpty_iff]
  · have hw2 : ¬ (DataValidator.validate_core ⟨false, b, t⟩ data).warnings = [] := by
      simpa [List.isEmpty_iff] using hw
    simp [hw, hw2, List.isEmpty_iff]

/-- C3 witness: the monotonicity implication at a concrete clean
record, accepted in strict mode and hence in permissive mode. -/
theorem validate_gps_point_mode_monotone_witness :
    ((⟨false, none, 200⟩ : DataValidator).validate_gps_point cleanData).1 = true :=
  (validate_gps_point_mode_monotone none 200 cleanData).2.2 (by decide)

/-- C4.  `validate_coordinates` accepts the inclusive WGS84 corner
`(180, 90)`; rejects longitude `180.0000001` with the hard-range
message (the embedding's `lonRange`, the source's "out of valid range
[-180, 180]" append — the spec's `COORDINATE_ERROR` category); and for
any coordinate outside the hard WGS84 range the returned error list
always contains a hard-range message and never the bounding-box
message (`outsideBounds`, the spec's `BOUNDS_ERROR`), because the
configured box is only evaluated when `errors` is still empty. -/
theorem validate_coordinates_boundary :
    (({} : DataValidator).validate_coordinates 180 90 = (true, [])) ∧
    (({} : DataValidator).validate_coordinates (mkRat 1800000001 10000000) 0 =
       (false, [.lonRange (mkRat 1800000001 10000000)])) ∧
    (parisValidator.validate_coordinates (mkRat 5 2) (mkRat 977 20) =
       (false, [.outsideBounds (mkRat 5 2) (mkRat 977 20)])) ∧
    (parisValidator.validate_coordinates (mkRat 23 10) (mkRat 977 20) = (true, [])) ∧
    (∀ (v : DataValidator) (lon lat : ℚ),
       ¬((-180 ≤ lon ∧ lon ≤ 180) ∧ (-90 ≤ lat ∧ lat ≤ 90)) →
         (v.validate_coordinates lon lat).1 = false ∧
         (v.validate_coordinates lon lat).2.any Msg.isRangeMsg = true ∧
         (v.validate_coordinates lon lat).2.any Msg.isBoundsMsg = false) := by
  refine ⟨by decide, by decide, by decide, by decide, ?_⟩
  intro v lon lat h
  unfold DataValidator.validate_coordinates
  by_cases h1 : (-180 : ℚ) ≤ lon ∧ lon ≤ 180 <;>
    by_cases h2 : (-90 : ℚ) ≤ lat ∧ lat ≤ 90
  · exact absurd ⟨h1, h2⟩ h
  all_goals
    rcases hb : v.coordinate_bounds with _ | ⟨a, b, c, d⟩ <;>
      simp [h1, h2, Msg.isRangeMsg, Msg.isBoundsMsg]

/-- C4 witness: the general part at the concrete out-of-range input
`(999, 0)`. -/
theorem validate_coordinates_boundary_witness :
    (({} : DataValidator).validate_coordinates 999 0).1 = false ∧
    (({} : DataValidator).validate_coordinates 999 0).2.any Msg.isBoundsMsg = false :=
  ⟨(validate_coordinates_boundary.2.2.2.2 {} 999 0 (by decide)).1,
   (validate_coordinates_boundary.2.2.2.2 {} 999 0 (by decide)).2.2⟩

/-- C5 counterexample: a record whose speed is `-5` is *accepted* by
`validate_gps_point` in the default (permissive) mode — the negative
speed produces only a warning — contradicting the claim that a negative
speed is a hard error rejected in every mode. -/
theorem negative_speed_not_hard_error :
    (({} : DataValidator).validate_gps_point negSpeedData).1 = true ∧
    (({} : DataValidator).validate_gps_point negSpeedData).2.warnings =
      [.negSpeed (-5)] := by
  constructor <;> decide

/-- C5 (amended).  Speed problems never contribute to `errors` in
permissive mode: both a negative speed and an over-threshold speed are
warnings, so the record is accepted in permissive mode and rejected in
strict mode in exactly the same way for both defects. -/
theorem speed_failures_are_warnings :
    (∀ (b : Option (ℚ × ℚ × ℚ × ℚ)) (t : ℚ) (data : Dict),
       (((⟨false, b, t⟩ : DataValidator).validate_gps_point data).2.errors.any
          Msg.isSpeedMsg) = false) ∧
    ((({} : DataValidator).validate_gps_point negSpeedData).1 = true) ∧
    ((({} : DataValidator).validate_gps_point fastSpeedData).1 = true ∧
     (({} : DataValidator).validate_gps_point fastSpeedData).2.warnings =
       [.speedExceeds 250 200]) ∧
    ((({ strict_mode := true } : DataValidator).validate_gps_point negSpeedData).1 = false) ∧
    ((({ strict_mode := true } : DataValidator).validate_gps_point fastSpeedData).1 = false) := by
  refine ⟨?_, by decide, ⟨by decide, by decide⟩, by decide, by decide⟩
  intro b t data
  rw [validate_gps_point_permissive]
  exact validate_core_errors_no_speed _ data

/-- C6 counterexample: with the Paris bounding box configured and
`strict_mode=False`, the record at `(2.5, 48.85)` — valid WGS84 but
outside the box — is *rejected* by the generic validator (the
bounding-box violation lands in `errors`), contradicting the claim
that in permissive mode it is accepted and only flagged. -/
theorem bbox_violation_rejects_in_permissive :
    (parisValidator.validate_gps_point parisOutsideData).1 = false ∧
    ((parisValidator.validate_gps_point parisOutsideData).2.errors.any
       Msg.isBoundsMsg) = true := by
  constructor <;> decide

/-- C6 (amended).  In the generic `DataValidator` a bounding-box
violation is a hard error rejecting the record in *both* modes; the
mode-dependent soft/hard behaviour exists only in
`TDriveImporter._validate_and_parse_line`, where an in-WGS84 point
outside the Beijing box is accepted but flagged `is_valid=False` in
permissive mode and rejected under the `VALIDATION_ERROR` (not a
distinct `BOUNDS_ERROR`) category in strict mode. -/
theorem bbox_violation_behaviour (v : DataValidator) (data : Dict)
    (r0 ts lonS latS taxi fn : String) (dt : DateTime) (lon lat : ℚ)
    (hb : (v.validate_gps_point data).2.errors.any Msg.isBoundsMsg = true)
    (hts : strptime fmtYmdHMS (pyStrip ts) = some dt)
    (hlon : pyFloat? (pyStrip lonS) = some lon)
    (hlat : pyFloat? (pyStrip latS) = some lat)
    (hr1 : -180 ≤ lon ∧ lon ≤ 180) (hr2 : -90 ≤ lat ∧ lat ≤ 90)
    (hout : ¬(BEIJING_MIN_LON ≤ lon ∧ lon ≤ BEIJING_MAX_LON) ∨
            ¬(BEIJING_MIN_LAT ≤ lat ∧ lat ≤ BEIJING_MAX_LAT)) :
    (v.validate_gps_point data).1 = false ∧
    (validate_and_parse_line ⟨true, true⟩ [r0, ts, lonS, latS] taxi fn =
       .rejected .VALIDATION_ERROR) ∧
    (∃ p, validate_and_parse_line ⟨false, true⟩ [r0, ts, lonS, latS] taxi fn =
            .accepted p ∧ p.is_valid = false) := by
  refine ⟨?_, ?_, ?_⟩
  · by_contra hacc
    have h1 : (v.validate_gps_point data).1 = true := by
      cases h : (v.validate_gps_point data).1
      · exact absurd h hacc
      · rfl
    have h2 := (accepted_errors_nil v data h1).1.trans (accepted_errors_nil v data h1).2
    rw [h2] at hb
    simp at hb
  · unfold validate_and_parse_line
    simp only [hts, hlon, hlat]
    by_cases hbl : BEIJING_MIN_LON ≤ lon ∧ lon ≤ BEIJING_MAX_LON <;>
      by_cases hbt : BEIJING_MIN_LAT ≤ lat ∧ lat ≤ BEIJING_MAX_LAT
    · exact absurd hbl (hout.resolve_right (fun hc => hc hbt))
    all_goals simp [hr1, hr2, hbl, hbt]
  · unfold validate_and_parse_line
    simp only [hts, hlon, hlat]
    by_cases hbl : BEIJING_MIN_LON ≤ lon ∧ lon ≤ BEIJING_MAX_LON <;>
      by_cases hbt : BEIJING_MIN_LAT ≤ lat ∧ lat ≤ BEIJING_MAX_LAT
    · exact absurd hbl (hout.resolve_right (fun hc => hc hbt))
    all_goals
      simp only [hr1, hr2, hbl, hbt, not_true, not_false_iff, if_true, if_false]
      simp [hr1, hr2, hbl, hbt]

/-- C6 witness: the amended behaviour at the concrete line
`1,2008-02-02 13:30:39,120.0,30.0` (WGS84-valid, outside Beijing). -/
theorem bbox_violation_behaviour_witness :
    (parisValidator.validate_gps_point parisOutsideData).1 = false ∧
    (validate_and_parse_line ⟨true, true⟩
       ["1", "2008-02-02 13:30:39", "120.0", "30.0"] "1" "1.txt" =
       .rejected .VALIDATION_ERROR) ∧
    (∃ p, validate_and_parse_line ⟨false, true⟩
            ["1", "2008-02-02 13:30:39", "120.0", "30.0"] "1" "1.txt" =
            .accepted p ∧ p.is_valid = false) :=
  bbox_violation_behaviour parisValidator parisOutsideData
    "1" "2008-02-02 13:30:39" "120.0" "30.0" "1" "1.txt"
    ⟨2008, 2, 2, 13, 30, 39, 0⟩ 120 30
    (by decide) (by decide) (by decide) (by decide)
    (by decide) (by decide) (by decide)

/-- C8.  `validate_timestamp` tries the five formats in order
(`'%Y-%m-%d %H:%M:%S'`, `'%Y-%m-%dT%H:%M:%S'`,
`'%Y-%m-%d %H:%M:%S.%f'`, `'%d/%m/%Y %H:%M:%S'`,
`'%m/%d/%Y %H:%M:%S'`); the first matching format wins (witnessed
concretely by `05/03/2024`, parsed day-first, and by the fractional
variant); a string matching no format is a hard rejection; and parsing
the formatted string `2024-01-15 08:30:00` yields the identical
instant back. -/
theorem validate_timestamp_formats :
    (tsFormats = [fmtYmdHMS, fmtIsoT, fmtYmdHMSf, fmtDMY, fmtMDY]) ∧
    (∀ (s : String) (dt : DateTime), strptime fmtYmdHMS s = some dt →
       validate_timestamp (.vStr s) = (true, some dt, [])) ∧
    (∀ s : String, (∀ f ∈ tsFormats, strptime f s = none) →
       validate_timestamp (.vStr s) = (false, none, [.tsNoParse s])) ∧
    (formatYmdHMS ⟨2024, 1, 15, 8, 30, 0, 0⟩ = "2024-01-15 08:30:00" ∧
     validate_timestamp (.vStr (formatYmdHMS ⟨2024, 1, 15, 8, 30, 0, 0⟩)) =
       (true, some ⟨2024, 1, 15, 8, 30, 0, 0⟩, [])) ∧
    (validate_timestamp (.vStr "2024-01-15T08:30:00") =
       (true, some ⟨2024, 1, 15, 8, 30, 0, 0⟩, [])) ∧
    (validate_timestamp (.vStr "2024-01-15 08:30:00.5") =
       (true, some ⟨2024, 1, 15, 8, 30, 0, 500000⟩, [])) ∧
    (validate_timestamp (.vStr "05/03/2024 00:00:00") =
       (true, some ⟨2024, 3, 5, 0, 0, 0, 0⟩, [])) ∧
    (validate_timestamp (.vStr "invalid-date") =
       (false, none, [.tsNoParse "invalid-date"])) := by
  refine ⟨rfl, ?_, ?_, ⟨by decide, by decide⟩, by decide, by decide, by decide, by decide⟩
  · intro s dt h
    simp [validate_timestamp, tsFormats, List.findSome?_cons, h]
  · intro s h
    have : tsFormats.findSome? (fun f => strptime f s) = none := by
      simp only [List.findSome?_eq_none]
      exact h
    simp [validate_timestamp, this]

/-- C8 witness: the first-format and no-format parts at concrete
strings. -/
theorem validate_timestamp_formats_witness :
    validate_timestamp (.vStr "2008-02-02 13:30:39") =
      (true, some ⟨2008, 2, 2, 13, 30, 39, 0⟩, []) ∧
    validate_timestamp (.vStr "not-a-date") =
      (false, none, [.tsNoParse "not-a-date"]) :=
  ⟨validate_timestamp_formats.2.1 "2008-02-02 13:30:39" ⟨2008, 2, 2, 13, 30, 39, 0⟩
     (by decide),
   validate_timestamp_formats.2.2.1 "not-a-date" (by decide)⟩


/-!  Lemmas and theorems about the import pipelines (C1, C2, C7). -/


lemma flushIfFull_csvStep (bs i : ℕ) (st : RunState) (h : CsvStep st i) :
    (∀ st2, flushIfFull bs st = .ok st2 → CsvStep st2 i) ∧
    (∀ st2, flushIfFull bs st = .error st2 → CsvStep st2 i) := by
  obtain ⟨hA, hB, hC, hD⟩ := h
  unfold flushIfFull
  split
  · rcases hbc : bulk_create st.store st.buffer with e | s2 <;> simp only [hbc]
    case error =>
      constructor
      · intro st2 h2
        cases h2
      · intro st2 h2
        injection h2 with h2
        subst h2
        exact ⟨hA, hB, hC, hD⟩
    case ok =>
      constructor
      · intro st2 h2
        injection h2 with h2
        subst h2
        refine ⟨hA, hB, ?_, hD⟩
        intro j hj
        rcases List.mem_append.mp hj with hj | hj
        · exact hC j hj
        · rcases List.mem_singleton.mp hj with rfl
          exact hA
      · intro st2 h2
        cases h2
  · constructor
    · intro st2 h2
      injection h2 with h2
      subst h2
      exact ⟨hA, hB, hC, hD⟩
    · intro st2 h2
      cases h2

lemma csvProcessRow_inv
    (v : DataValidator) (fm : List (String × String)) (bs i : ℕ) (row : Dict)
    (st : RunState)
    (h1 : st.job.processed_records = st.job.successful_records + st.job.failed_records)
    (h3 : ∀ j ∈ st.saves, j.processed_records = j.successful_records + j.failed_records)
    (h2 : st.job.processed_records = st.record_count)
    (hi : st.record_count + 1 = i) :
    (∀ st2, csvProcessRow v fm bs i row st = .ok st2 → CsvStep st2 i) ∧
    (∀ st2, csvProcessRow v fm bs i row st = .error st2 → CsvStep st2 i) := by
  unfold csvProcessRow
  refine flushIfFull_csvStep bs i _ ?_
  by_cases hv : (v.validate_gps_point
      (if fm.isEmpty then (row, ([] : Dict)) else apply_field_mapping row fm).1).1 = true <;>
    simp only [hv, if_true, if_false, Bool.false_eq_true, CsvStep] <;>
    refine ⟨?_, ?_, ?_, ?_⟩ <;>
    first
      | trivial
      | (intro j hj; exact h3 j hj)
      | (simp only [RunState.mk.injEq]; omega)
      | (simp; omega)
      | simp
      | omega

lemma csvLoop_inv (v : DataValidator) (fm : List (String × String)) (bs : ℕ) :
    ∀ (rows : List Dict) (i : ℕ) (st : RunState),
      st.job.processed_records = st.job.successful_records + st.job.failed_records →
      (∀ j ∈ st.saves, j.processed_records = j.successful_records + j.failed_records) →
      st.job.processed_records = st.record_count →
      st.record_count + 1 = i →
      (∀ st2, csvLoop v fm bs i rows st = .ok st2 →
        st2.job.processed_records = st2.job.successful_records + st2.job.failed_records ∧
        st2.job.processed_records = st2.record_count ∧
        (∀ j ∈ st2.saves, j.processed_records = j.successful_records + j.failed_records)) ∧
      (∀ st2, csvLoop v fm bs i rows st = .error st2 →
        st2.job.processed_records = st2.job.successful_records + st2.job.failed_records ∧
        (∀ j ∈ st2.saves, j.processed_records = j.successful_records + j.failed_records)) := by
  intro rows
  induction rows with
  | nil =>
      intro i st h1 h3 h2 hi
      constructor
      · intro st2 hst2
        injection hst2 with hst2
        subst hst2
        exact ⟨h1, h2, h3⟩
      · intro st2 hst2
        cases hst2
  | cons row rest ih =>
      intro i st h1 h3 h2 hi
      have hstep := csvProcessRow_inv v fm bs i row st h1 h3 h2 hi
      constructor
      · intro st2 hst2
        unfold csvLoop at hst2
        rcases hmid : csvProcessRow v fm bs i row st with e | stm
        · rw [hmid] at hst2
          cases hst2
        · rw [hmid] at hst2
          obtain ⟨m1, m2, m3, m4⟩ := hstep.1 stm hmid
          exact ((ih (i + 1) stm m1 m3 m2 (by omega)).1 st2 hst2)
      · intro st2 hst2
        unfold csvLoop at hst2
        rcases hmid : csvProcessRow v fm bs i row st with e | stm
        · rw [hmid] at hst2
          injection hst2 with hst2
          subst hst2
          obtain ⟨m1, m2, m3, m4⟩ := hstep.2 e hmid
          exact ⟨m1, m3⟩
        · rw [hmid] at hst2
          obtain ⟨m1, m2, m3, m4⟩ := hstep.1 stm hmid
          obtain ⟨r1, r2⟩ := (ih (i + 1) stm m1 m3 m2 (by omega)).2 st2 hst2
          exact ⟨r1, r2⟩

lemma finalizeImport_conservation (r : Except RunState RunState)
    (hok : ∀ st, r = .ok st →
      st.job.processed_records = st.job.successful_records + st.job.failed_records ∧
      st.job.processed_records = st.record_count ∧
      (∀ j ∈ st.saves, j.processed_records = j.successful_records + j.failed_records))
    (herr : ∀ st, r = .error st →
      st.job.processed_records = st.job.successful_records + st.job.failed_records ∧
      (∀ j ∈ st.saves, j.processed_records = j.successful_records + j.failed_records)) :
    (∀ j ∈ (finalizeImport r).2.2,
        j.processed_records = j.successful_records + j.failed_records) ∧
    ((finalizeImport r).1.status = .completed →
        (finalizeImport r).1.total_records =
          some (finalizeImport r).1.processed_records) := by
  rcases r with st | st
  · obtain ⟨h1, h3⟩ := herr st rfl
    unfold finalizeImport
    constructor
    · intro j hj
      rcases List.mem_append.mp hj with hj | hj
      · exact h3 j hj
      · rcases List.mem_singleton.mp hj with rfl
        exact h1
    · intro hc
      simp at hc
  · obtain ⟨h1, h2, h3⟩ := hok st rfl
    unfold finalizeImport
    rcases hfl : (if st.buffer.isEmpty then Except.ok st.store else bulk_create st.store st.buffer)
        with e | s2 <;> simp only [hfl]
    · constructor
      · intro j hj
        rcases List.mem_append.mp hj with hj | hj
        · exact h3 j hj
        · rcases List.mem_singleton.mp hj with rfl
          exact h1
      · intro hc
        simp at hc
    · constructor
      · intro j hj
        rcases List.mem_append.mp hj with hj | hj
        · exact h3 j hj
        · rcases List.mem_singleton.mp hj with rfl
          exact h1
      · intro _
        simpa using h2.symm

lemma flushIfFull_textStep (bs i : ℕ) (st : RunState) (h : TextStep st i) :
    (∀ st2, flushIfFull bs st = .ok st2 → TextStep st2 i) ∧
    (∀ st2, flushIfFull bs st = .error st2 → TextStep st2 i) := by
  obtain ⟨hA, hC, hD⟩ := h
  unfold flushIfFull
  split
  · rcases hbc : bulk_create st.store st.buffer with e | s2 <;> simp only [hbc]
    case error =>
      constructor
      · intro st2 h2
        cases h2
      · intro st2 h2
        injection h2 with h2
        subst h2
        exact ⟨hA, hC, hD⟩
    case ok =>
      constructor
      · intro st2 h2
        injection h2 with h2
        subst h2
        refine ⟨hA, ?_, hD⟩
        intro j hj
        rcases List.mem_append.mp hj with hj | hj
        · exact hC j hj
        · rcases List.mem_singleton.mp hj with rfl
          exact hA
      · intro st2 h2
        cases h2
  · constructor
    · intro st2 h2
      injection h2 with h2
      subst h2
      exact ⟨hA, hC, hD⟩
    · intro st2 h2
      cases h2

lemma textProcessLine_inv (v : DataValidator) (delim : String) (bs i : ℕ)
    (line : String) (st : RunState)
    (h1 : st.job.processed_records = st.job.successful_records + st.job.failed_records)
    (h3 : ∀ j ∈ st.saves, j.processed_records = j.successful_records + j.failed_records)
    (hgood : pyStrip line = "" ∨ 4 ≤ (pySplit (pyStrip line) delim).length) :
    (∀ st2, textProcessLine v delim bs i line st = .ok st2 → TextStep st2 i) ∧
    (∀ st2, textProcessLine v delim bs i line st = .error st2 → TextStep st2 i) := by
  unfold textProcessLine
  by_cases hbl : pyStrip line = ""
  · simp only [hbl, if_pos]
    constructor
    · intro st2 h2
      injection h2 with h2
      subst h2
      exact ⟨h1, h3, rfl⟩
    · intro st2 h2
      cases h2
  · have hlen : 4 ≤ (pySplit (pyStrip line) delim).length := hgood.resolve_left hbl
    simp only [if_neg hbl]
    rcases hp : (pySplit (pyStrip line) delim).map pyStrip with
        _ | ⟨p0, _ | ⟨p1, _ | ⟨p2, _ | ⟨p3, rest⟩⟩⟩⟩ <;>
      simp only [hp] <;>
      try (exfalso
           have := congrArg List.length hp
           simp only [List.length_map, List.length_cons, List.length_nil] at this
           omega)
    refine flushIfFull_textStep bs i _ ?_
    by_cases hv : (v.validate_gps_point
        [("entity_id", .vStr p0), ("timestamp", .vStr p1),
         ("longitude", .vStr p2), ("latitude", .vStr p3)]).1 = true <;>
      simp only [hv, if_true, if_false, Bool.false_eq_true, TextStep] <;>
      refine ⟨?_, ?_, ?_⟩ <;>
      first
        | trivial
        | (intro j hj; exact h3 j hj)
        | (simp; omega)
        | simp
        | omega

lemma textProcessLine_inv2 (v : DataValidator) (delim : String) (bs i : ℕ)
    (line : String) (st : RunState)
    (h1 : st.job.processed_records = st.job.successful_records + st.job.failed_records)
    (h3 : ∀ j ∈ st.saves, j.processed_records = j.successful_records + j.failed_records)
    (h2 : st.job.processed_records = st.record_count)
    (hi : st.record_count + 1 = i)
    (hbl : pyStrip line ≠ "")
    (hlen : 4 ≤ (pySplit (pyStrip line) delim).length) :
    (∀ st2, textProcessLine v delim bs i line st = .ok st2 → CsvStep st2 i) ∧
    (∀ st2, textProcessLine v delim bs i line st = .error st2 → CsvStep st2 i) := by
  unfold textProcessLine
  simp only [if_neg hbl]
  rcases hp : (pySplit (pyStrip line) delim).map pyStrip with
      _ | ⟨p0, _ | ⟨p1, _ | ⟨p2, _ | ⟨p3, rest⟩⟩⟩⟩ <;>
    simp only [hp] <;>
    try (exfalso
         have := congrArg List.length hp
         simp only [List.length_map, List.length_cons, List.length_nil] at this
         omega)
  refine flushIfFull_csvStep bs i _ ?_
  by_cases hv : (v.validate_gps_point
      [("entity_id", .vStr p0), ("timestamp", .vStr p1),
       ("longitude", .vStr p2), ("latitude", .vStr p3)]).1 = true <;>
    simp only [hv, if_true, if_false, Bool.false_eq_true, CsvStep] <;>
    refine ⟨?_, ?_, ?_, ?_⟩ <;>
    first
      | trivial
      | (intro j hj; exact h3 j hj)
      | (simp; omega)
      | simp
      | omega

lemma finalizeImport_saves (r : Except RunState RunState)
    (hok : ∀ st, r = .ok st →
      st.job.processed_records = st.job.successful_records + st.job.failed_records ∧
      (∀ j ∈ st.saves, j.processed_records = j.successful_records + j.failed_records))
    (herr : ∀ st, r = .error st →
      st.job.processed_records = st.job.successful_records + st.job.failed_records ∧
      (∀ j ∈ st.saves, j.processed_records = j.successful_records + j.failed_records)) :
    ∀ j ∈ (finalizeImport r).2.2,
      j.processed_records = j.successful_records + j.failed_records := by
  rcases r with st | st
  · obtain ⟨h1, h3⟩ := herr st rfl
    unfold finalizeImport
    intro j hj
    rcases List.mem_append.mp hj with hj | hj
    · exact h3 j hj
    · rcases List.mem_singleton.mp hj with rfl
      exact h1
  · obtain ⟨h1, h3⟩ := hok st rfl
    unfold finalizeImport
    rcases hfl : (if st.buffer.isEmpty then Except.ok st.store else bulk_create st.store st.buffer)
        with e | s2 <;> simp only [hfl] <;>
      intro j hj <;>
      rcases List.mem_append.mp hj with hj | hj
    · exact h3 j hj
    · rcases List.mem_singleton.mp hj with rfl
      exact h1
    · exact h3 j hj
    · rcases List.mem_singleton.mp hj with rfl
      exact h1

lemma finalizeImport_total (r : Except RunState RunState)
    (hok : ∀ st, r = .ok st → st.job.processed_records = st.record_count) :
    (finalizeImport r).1.status = .completed →
      (finalizeImport r).1.total_records = some (finalizeImport r).1.processed_records := by
  rcases r with st | st
  · unfold finalizeImport
    intro hc
    simp at hc
  · have h2 := hok st rfl
    unfold finalizeImport
    rcases hfl : (if st.buffer.isEmpty then Except.ok st.store else bulk_create st.store st.buffer)
        with e | s2 <;> simp only [hfl]
    · intro hc
      simp at hc
    · intro _
      simpa using h2.symm

lemma textLoop_inv (v : DataValidator) (delim : String) (bs : ℕ) :
    ∀ (lines : List String) (i : ℕ) (st : RunState),
      (∀ l ∈ lines, pyStrip l = "" ∨ 4 ≤ (pySplit (pyStrip l) delim).length) →
      st.job.processed_records = st.job.successful_records + st.job.failed_records →
      (∀ j ∈ st.saves, j.processed_records = j.successful_records + j.failed_records) →
      (∀ st2, textLoop v delim bs i lines st = .ok st2 →
        st2.job.processed_records = st2.job.successful_records + st2.job.failed_records ∧
        (∀ j ∈ st2.saves, j.processed_records = j.successful_records + j.failed_records)) ∧
      (∀ st2, textLoop v delim bs i lines st = .error st2 →
        st2.job.processed_records = st2.job.successful_records + st2.job.failed_records ∧
        (∀ j ∈ st2.saves, j.processed_records = j.successful_records + j.failed_records)) := by
  intro lines
  induction lines with
  | nil =>
      intro i st _ h1 h3
      constructor
      · intro st2 hst2
        injection hst2 with hst2
        subst hst2
        exact ⟨h1, h3⟩
      · intro st2 hst2
        cases hst2
  | cons line rest ih =>
      intro i st hgood h1 h3
      have hstep := textProcessLine_inv v delim bs i line st h1 h3
        (hgood line (List.mem_cons_self line rest))
      have hrest : ∀ l ∈ rest, pyStrip l = "" ∨ 4 ≤ (pySplit (pyStrip l) delim).length :=
        fun l hl => hgood l (List.mem_cons_of_mem line hl)
      constructor
      · intro st2 hst2
        unfold textLoop at hst2
        rcases hmid : textProcessLine v delim bs i line st with e | stm
        · rw [hmid] at hst2
          cases hst2
        · rw [hmid] at hst2
          obtain ⟨m1, m3, m4⟩ := hstep.1 stm hmid
          exact (ih (i + 1) stm hrest m1 m3).1 st2 hst2
      · intro st2 hst2
        unfold textLoop at hst2
        rcases hmid : textProcessLine v delim bs i line st with e | stm
        · rw [hmid] at hst2
          injection hst2 with hst2
          subst hst2
          obtain ⟨m1, m3, m4⟩ := hstep.2 e hmid
          exact ⟨m1, m3⟩
        · rw [hmid] at hst2
          obtain ⟨m1, m3, m4⟩ := hstep.1 stm hmid
          exact (ih (i + 1) stm hrest m1 m3).2 st2 hst2

lemma textLoop_inv2 (v : DataValidator) (delim : String) (bs : ℕ) :
    ∀ (lines : List String) (i : ℕ) (st : RunState),
      (∀ l ∈ lines, pyStrip l ≠ "" ∧ 4 ≤ (pySplit (pyStrip l) delim).length) →
      st.job.processed_records = st.job.successful_records + st.job.failed_records →
      (∀ j ∈ st.saves, j.processed_records = j.successful_records + j.failed_records) →
      st.job.processed_records = st.record_count →
      st.record_count + 1 = i →
      ∀ st2, textLoop v delim bs i lines st = .ok st2 →
        st2.job.processed_records = st2.record_count := by
  intro lines
  induction lines with
  | nil =>
      intro i st _ h1 h3 h2 hi st2 hst2
      injection hst2 with hst2
      subst hst2
      exact h2
  | cons line rest ih =>
      intro i st hgood h1 h3 h2 hi st2 hst2
      obtain ⟨hbl, hlen⟩ := hgood line (List.mem_cons_self line rest)
      have hstep := textProcessLine_inv2 v delim bs i line st h1 h3 h2 hi hbl hlen
      have hrest : ∀ l ∈ rest, pyStrip l ≠ "" ∧ 4 ≤ (pySplit (pyStrip l) delim).length :=
        fun l hl => hgood l (List.mem_cons_of_mem line hl)
      unfold textLoop at hst2
      rcases hmid : textProcessLine v delim bs i line st with e | stm
      · rw [hmid] at hst2
        cases hst2
      · rw [hmid] at hst2
        obtain ⟨m1, m2, m3, m4⟩ := hstep.1 stm hmid
        exact ih (i + 1) stm hrest m1 m3 m2 (by omega) st2 hst2

/-- C1 (amended).  For `import_from_csv` the conservation invariant
holds in full: every persisted job snapshot (per-batch saves, the
initial save and the final save) satisfies
`processed_records = successful_records + failed_records`, and a
completed job has `total_records = processed_records`.  For
`import_text_file` the balance equation holds at every persisted
snapshot provided every non-blank line splits into at least 4 fields (a
shorter line `continue`s past the `processed_records` increment after
counting a failure), and `total_records = processed_records` further
requires that no line is blank (a blank line raises `record_count`
without being processed). -/
theorem import_conservation_amended :
    (∀ (cfg : CsvConfig) (bs : ℕ) (rows : List (List String)) (s0 : Store),
       (∀ j ∈ (import_from_csv cfg bs rows s0).2.2,
          j.processed_records = j.successful_records + j.failed_records) ∧
       ((import_from_csv cfg bs rows s0).1.status = .completed →
          (import_from_csv cfg bs rows s0).1.total_records =
            some (import_from_csv cfg bs rows s0).1.processed_records)) ∧
    (∀ (cfg : TextConfig) (bs : ℕ) (lines : List String) (s0 : Store),
       ((∀ l ∈ lines, pyStrip l = "" ∨ 4 ≤ (pySplit (pyStrip l) cfg.delimiter).length) →
          ∀ j ∈ (import_text_file cfg bs lines s0).2.2,
            j.processed_records = j.successful_records + j.failed_records) ∧
       ((∀ l ∈ lines, pyStrip l ≠ "" ∧ 4 ≤ (pySplit (pyStrip l) cfg.delimiter).length) →
          (import_text_file cfg bs lines s0).1.status = .completed →
          (import_text_file cfg bs lines s0).1.total_records =
            some (import_text_file cfg bs lines s0).1.processed_records)) := by
  have hsave0 : ∀ j ∈ [({ status := .processing } : ImportJob)],
      j.processed_records = j.successful_records + j.failed_records := by
    intro j hj
    rcases List.mem_singleton.mp hj with rfl
    rfl
  constructor
  · intro cfg bs rows s0
    unfold import_from_csv
    have hloop := csvLoop_inv cfg.validation cfg.field_mapping bs
      (if cfg.skip_header then (dictReaderRows rows).drop 1 else dictReaderRows rows) 1
      { job := { status := .processing }, buffer := [], store := s0,
        record_count := 0, saves := [{ status := .processing }] }
      rfl hsave0 rfl rfl
    constructor
    · exact finalizeImport_saves _
        (fun st hst => ⟨(hloop.1 st hst).1, (hloop.1 st hst).2.2⟩)
        (fun st hst => hloop.2 st hst)
    · exact finalizeImport_total _ (fun st hst => (hloop.1 st hst).2.1)
  · intro cfg bs lines s0
    constructor
    · intro hgood
      unfold import_text_file
      have hloop := textLoop_inv cfg.validation cfg.delimiter bs lines 1
        { job := { status := .processing }, buffer := [], store := s0,
          record_count := 0, saves := [{ status := .processing }] }
        hgood rfl hsave0
      exact finalizeImport_saves _ (fun st hst => hloop.1 st hst) (fun st hst => hloop.2 st hst)
    · intro hgood
      unfold import_text_file
      have hloop := textLoop_inv2 cfg.validation cfg.delimiter bs lines 1
        { job := { status := .processing }, buffer := [], store := s0,
          record_count := 0, saves := [{ status := .processing }] }
        hgood rfl hsave0 rfl rfl
      exact finalizeImport_total _ (fun st hst => hloop st hst)

/-- C1 witness: the theorem applied to a concrete CSV run (batch size 1,
two valid data rows, so a mid-run checkpoint exists) and a concrete
text run. -/
theorem import_conservation_witness :
    jW.processed_records = jW.successful_records + jW.failed_records ∧
    (import_from_csv {} 1 rowsW ⟨[]⟩).1.total_records =
      some (import_from_csv {} 1 rowsW ⟨[]⟩).1.processed_records ∧
    (import_text_file {} 1 linesW ⟨[]⟩).1.total_records =
      some (import_text_file {} 1 linesW ⟨[]⟩).1.processed_records :=
  ⟨(import_conservation_amended.1 {} 1 rowsW ⟨[]⟩).1 jW (by decide),
   (import_conservation_amended.1 {} 1 rowsW ⟨[]⟩).2 (by decide),
   (import_conservation_amended.2 {} 1 linesW ⟨[]⟩).2 (by decide) (by decide)⟩

/-- C1 counterexample: `import_text_file` on the single line `"1,2"`
ends `completed` with `failed_records = 1` but `processed_records = 0`
(the short-line `continue` skips the increment), so
`processed == successful + failed` and `total == processed` both fail
on a completed run. -/
theorem import_text_file_breaks_conservation :
    (import_text_file {} 1000 ["1,2"] ⟨[]⟩).1.status = .completed ∧
    (import_text_file {} 1000 ["1,2"] ⟨[]⟩).1.processed_records = 0 ∧
    (import_text_file {} 1000 ["1,2"] ⟨[]⟩).1.successful_records = 0 ∧
    (import_text_file {} 1000 ["1,2"] ⟨[]⟩).1.failed_records = 1 ∧
    (import_text_file {} 1000 ["1,2"] ⟨[]⟩).1.total_records = some 1 := by
  refine ⟨by decide, by decide, by decide, by decide, by decide⟩

/-- C7 (code bug): with the default `skip_header=True`, a CSV of one
header row and two valid data rows completes with
`processed_records = 1`, not 2 — `csv.DictReader` already consumed the
header as field names, so the extra `next(reader, None)` silently drops
the *first data row* (here entity `"1"`), and only entity `"2"` is
stored.  The config's own documentation ("skip_header: Skip first
row") and the spec agree that only the header should be skipped. -/
theorem skip_header_skips_a_data_row :
    (import_from_csv {} 1000 headerAndTwoRows ⟨[]⟩).1 =
      { status := .completed, total_records := some 1, processed_records := 1,
        successful_records := 1, failed_records := 0 } ∧
    (import_from_csv {} 1000 headerAndTwoRows ⟨[]⟩).2.1.hasKey
      (.vStr "1", ⟨2008, 2, 2, 13, 30, 39, 0⟩) = false ∧
    (import_from_csv {} 1000 headerAndTwoRows ⟨[]⟩).2.1.hasKey
      (.vStr "2", ⟨2008, 2, 2, 13, 30, 40, 0⟩) = true := by
  refine ⟨by decide, by decide, by decide⟩

/-- C2 counterexample: flushing a batch in `import_from_csv` is an
unguarded `bulk_create`; with one record duplicating a stored
`(dataset, entity_id, timestamp)` key the `IntegrityError` propagates,
the job ends `failed`, the store is unchanged and the batch's fresh
record (entity `"2"`) is *not* inserted — the batch is lost and the job
aborts, contradicting the claim. -/
theorem duplicate_key_aborts_csv_flush :
    (import_from_csv noSkipCfg 1000 dupRows preStore).1.status = .failed ∧
    (import_from_csv noSkipCfg 1000 dupRows preStore).2.1 = preStore ∧
    (import_from_csv noSkipCfg 1000 dupRows preStore).2.1.hasKey
      (.vStr "2", ⟨2008, 2, 2, 13, 30, 40, 0⟩) = false := by
  refine ⟨by decide, by decide, by decide⟩

-- fold lemmas for the per-record fallback of _bulk_insert_points

lemma saveSkip_preserves (st : List TPoint) (batch : List TPoint) (k : String × Option DateTime)
    (h : (st.any (fun q => tdriveKey q = k)) = true) :
    ((batch.foldl (fun s p => if uniqueKeyStore.saveFails s p then s else s ++ [p]) st).any
      (fun q => tdriveKey q = k)) = true := by
  induction batch generalizing st with
  | nil => exact h
  | cons p rest ih =>
      simp only [List.foldl_cons]
      apply ih
      by_cases hs : uniqueKeyStore.saveFails st p = true
      · simpa [hs] using h
      · simp only [hs]
        simp only [Bool.not_eq_true] at hs
        simp [List.any_append, h]

lemma saveSkip_key_present (batch : List TPoint) (st : List TPoint) (p : TPoint)
    (hp : p ∈ batch) :
    ((batch.foldl (fun s q => if uniqueKeyStore.saveFails s q then s else s ++ [q]) st).any
      (fun q => tdriveKey q = tdriveKey p)) = true := by
  induction batch generalizing st with
  | nil => cases hp
  | cons a rest ih =>
      simp only [List.foldl_cons]
      rcases List.mem_cons.mp hp with rfl | hp2
      · apply saveSkip_preserves
        by_cases hs : uniqueKeyStore.saveFails st p = true
        · rw [if_pos hs]
          simpa [uniqueKeyStore, tKeyMem] using hs
        · rw [if_neg hs]
          simp [List.any_append]
      · exact ih _ hp2

lemma tKeyMem_iff_mem_map (st : List TPoint) (p : TPoint) :
    tKeyMem st p = true ↔ tdriveKey p ∈ st.map tdriveKey := by
  constructor
  · intro h
    simp only [tKeyMem, List.any_eq_true, decide_eq_true_eq] at h
    rcases h with ⟨q, hq, hkq⟩
    exact List.mem_map.mpr ⟨q, hq, hkq⟩
  · intro h
    rcases List.mem_map.mp h with ⟨q, hq, hkq⟩
    simp only [tKeyMem, List.any_eq_true, decide_eq_true_eq]
    exact ⟨q, hq, hkq⟩

lemma hasDupTKeys_false_nodup (b : List TPoint) (h : hasDupTKeys b = false) :
    (b.map tdriveKey).Nodup := by
  induction b with
  | nil => simp
  | cons p rest ih =>
      rw [show hasDupTKeys (p :: rest) =
            (rest.any (fun q => tdriveKey q = tdriveKey p) || hasDupTKeys rest) from rfl,
          Bool.or_eq_false_iff] at h
      simp only [List.map_cons, List.nodup_cons]
      refine ⟨?_, ih h.2⟩
      intro hmem
      rcases List.mem_map.mp hmem with ⟨q, hq, hkq⟩
      have : rest.any (fun q => tdriveKey q = tdriveKey p) = true := by
        simp [List.any_eq_true]
        exact ⟨q, hq, hkq⟩
      rw [this] at h
      exact absurd h.1 (by simp)

lemma saveSkip_nodup (b : List TPoint) (st : List TPoint)
    (h : (st.map tdriveKey).Nodup) :
    (((b.foldl (fun s p => if uniqueKeyStore.saveFails s p then s else s ++ [p]) st)).map
      tdriveKey).Nodup := by
  induction b generalizing st with
  | nil => exact h
  | cons p rest ih =>
      simp only [List.foldl_cons]
      by_cases hs : uniqueKeyStore.saveFails st p = true
      · rw [if_pos hs]
        exact ih st h
      · rw [if_neg hs]
        apply ih
        simp only [List.map_append, List.map_cons, List.map_nil]
        apply List.Nodup.append h (by simp)
        intro k hk
        simp only [List.mem_singleton]
        intro hkp
        subst hkp
        have : tKeyMem st p = true := (tKeyMem_iff_mem_map st p).mpr hk
        exact hs (by simpa [uniqueKeyStore] using this)

lemma saveSkip_fix (b : List TPoint) (st : List TPoint)
    (h : ∀ p ∈ b, tKeyMem st p = true) :
    b.foldl (fun s p => if uniqueKeyStore.saveFails s p then s else s ++ [p]) st = st := by
  induction b with
  | nil => rfl
  | cons p rest ih =>
      simp only [List.foldl_cons]
      have hp : uniqueKeyStore.saveFails st p = true := by
        simpa [uniqueKeyStore] using h p (List.mem_cons_self p rest)
      rw [if_pos hp]
      exact ih (fun q hq => h q (List.mem_cons_of_mem p hq))

lemma tdrive_insert_key_present (st b : List TPoint) (p : TPoint) (hp : p ∈ b) :
    ((tdrive_bulk_insert_points uniqueKeyStore st b).any
      (fun q => tdriveKey q = tdriveKey p)) = true := by
  unfold tdrive_bulk_insert_points
  by_cases hc : uniqueKeyStore.bulkFails st b = true
  · rw [if_pos hc]
    exact saveSkip_key_present b st p hp
  · rw [if_neg hc]
    simp [List.any_append, List.any_eq_true]
    exact Or.inr ⟨p, hp, rfl⟩

/-- C2 (amended).  Only `TDriveImporter._bulk_insert_points` tolerates
uniqueness violations: when the bulk insert raises it falls back to
per-record saves, silently skipping each failing save.  Against a store
that enforces the `(taxi_id, timestamp)` key (`uniqueKeyStore` — the
deployed `TDriveRawPoint` table itself declares no such constraint),
every batch record's key is present after the flush (the remaining
records are not lost and nothing is raised), no duplicate row is
created, and flushing the same batch twice equals flushing it once. -/
theorem tdrive_bulk_insert_tolerates_duplicates :
    (∀ (st b : List TPoint) (p : TPoint), p ∈ b →
       ((tdrive_bulk_insert_points uniqueKeyStore st b).any
         (fun q => tdriveKey q = tdriveKey p)) = true) ∧
    (∀ (st b : List TPoint), (st.map tdriveKey).Nodup →
       ((tdrive_bulk_insert_points uniqueKeyStore st b).map tdriveKey).Nodup) ∧
    (∀ (st b : List TPoint),
       tdrive_bulk_insert_points uniqueKeyStore
           (tdrive_bulk_insert_points uniqueKeyStore st b) b =
         tdrive_bulk_insert_points uniqueKeyStore st b) := by
  refine ⟨?_, ?_, ?_⟩
  · intro st b p hp
    exact tdrive_insert_key_present st b p hp
  · intro st b hnd
    unfold tdrive_bulk_insert_points
    by_cases hc : uniqueKeyStore.bulkFails st b = true
    · rw [if_pos hc]
      exact saveSkip_nodup b st hnd
    · rw [if_neg hc]
      have hc2 : (b.any (tKeyMem st) = false) ∧ hasDupTKeys b = false := by
        have h4 := hc
        rw [Bool.not_eq_true] at h4
        exact Bool.or_eq_false_iff.mp (by simpa [uniqueKeyStore] using h4)
      simp only [List.map_append]
      apply List.Nodup.append hnd (hasDupTKeys_false_nodup b hc2.2)
      intro k hkst hkb
      rcases List.mem_map.mp hkb with ⟨q, hq, hkq⟩
      have : tKeyMem st q = true := by
        rw [tKeyMem_iff_mem_map, hkq]
        exact hkst
      have hfalse : b.any (tKeyMem st) = true := by
        simp [List.any_eq_true]
        exact ⟨q, hq, this⟩
      rw [hfalse] at hc2
      exact absurd hc2.1 (by simp)
  · intro st b
    rcases b with _ | ⟨p, rest⟩
    · unfold tdrive_bulk_insert_points
      simp [uniqueKeyStore, hasDupTKeys]
    · set X := tdrive_bulk_insert_points uniqueKeyStore st (p :: rest) with hX
      have hall : ∀ q ∈ p :: rest, tKeyMem X q = true := by
        intro q hq
        have := tdrive_insert_key_present st (p :: rest) q hq
        rw [← hX] at this
        simpa [tKeyMem] using this
      have hcond : uniqueKeyStore.bulkFails X (p :: rest) = true := by
        show ((p :: rest).any (tKeyMem X) || hasDupTKeys (p :: rest)) = true
        rw [Bool.or_eq_true]
        left
        simp only [List.any_eq_true]
        exact ⟨p, List.mem_cons_self p rest, hall p (List.mem_cons_self p rest)⟩
      show tdrive_bulk_insert_points uniqueKeyStore X (p :: rest) = X
      unfold tdrive_bulk_insert_points
      rw [if_pos hcond]
      exact saveSkip_fix (p :: rest) X hall

/-- C2 witness: the amended theorem at a store holding `tP1` and a
batch containing a duplicate of it plus a fresh record. -/
theorem tdrive_bulk_insert_tolerates_witness :
    ((tdrive_bulk_insert_points uniqueKeyStore tStoreW tBatchW).any
      (fun q => tdriveKey q = tdriveKey tP2)) = true ∧
    ((tdrive_bulk_insert_points uniqueKeyStore tStoreW tBatchW).map tdriveKey).Nodup ∧
    tdrive_bulk_insert_points uniqueKeyStore
        (tdrive_bulk_insert_points uniqueKeyStore tStoreW tBatchW) tBatchW =
      tdrive_bulk_insert_points uniqueKeyStore tStoreW tBatchW :=
  ⟨tdrive_bulk_insert_tolerates_duplicates.1 tStoreW tBatchW tP2 (by decide),
   tdrive_bulk_insert_tolerates_duplicates.2.1 tStoreW tBatchW (by decide),
   tdrive_bulk_insert_tolerates_duplicates.2.2 tStoreW tBatchW⟩



/-!  Lemmas and theorems about the T-Drive importer (C9, C10). -/


-- C10: successful counts accepted lines, independent of the store model

lemma tdriveLoop_successful (cfg : TDriveCfg) (m : TStoreModel) (bs : ℕ)
    (taxi fn : String) :
    ∀ (lines : List String) (stats : TStats) (batch store : List TPoint),
      (tdriveLoop cfg m bs taxi fn lines stats batch store).1.successful =
        stats.successful + batch.length +
          (lines.filter (lineAccepted cfg taxi fn)).length := by
  intro lines
  induction lines with
  | nil =>
      intro stats batch store
      unfold tdriveLoop
      by_cases hb : batch.isEmpty
      · rw [if_pos hb]
        have : batch.length = 0 := by simpa [List.isEmpty_iff, List.length_eq_zero] using hb
        simp [this]
      · rw [if_neg hb]
        simp
  | cons line rest ih =>
      intro stats batch store
      unfold tdriveLoop
      rcases hline : validate_and_parse_line cfg (csvRow line) taxi fn with p | t
      · simp only [hline]
        have hacc : lineAccepted cfg taxi fn line = true := by
          simp [lineAccepted, hline]
        by_cases hfl : bs ≤ (batch ++ [p]).length
        · rw [if_pos hfl]
          rw [ih]
          simp [hacc, List.filter_cons]
          omega
        · rw [if_neg hfl]
          rw [ih]
          simp [hacc, List.filter_cons]
          omega
      · simp only [hline]
        have hacc : lineAccepted cfg taxi fn line = false := by
          simp [lineAccepted, hline]
        rw [ih]
        simp [hacc, List.filter_cons]

lemma import_file_readable_ok (cfg : TDriveCfg) (m : TStoreModel)
    (store : List TPoint) (lines : List String) (name : String) :
    ∃ r log st2,
      tdrive_import_file cfg m store (.readable lines) name = .ok (r, log, st2) ∧
        log.status = .completed ∧ r.success = true := by
  unfold tdrive_import_file
  rcases h : pandasRead lines with _ | rows <;> simp only [h]
  · exact ⟨_, _, _, rfl, rfl, rfl⟩
  · exact ⟨_, _, _, rfl, rfl, rfl⟩

/-- C10.  In `TDriveImporter`, `successful` counts exactly the accepted
lines regardless of the store model (`_bulk_insert_points` catches and
discards every bulk-insert and per-record save exception, so every
flushed batch adds its full length); a readable file's import always
completes (`import_file` returns `success=True` with a `completed` log
for *any* store model, so a store write failure during flush never
fails the log); and with an always-failing store a two-line file
reports `successful = 2` while zero rows are persisted. -/
theorem tdrive_success_count_ignores_store :
    (∀ (cfg : TDriveCfg) (m : TStoreModel) (bs : ℕ) (store : List TPoint)
        (lines : List String) (taxi fn : String),
       (tdrive_process_file cfg m bs store lines taxi fn).1.successful =
         (lines.filter (lineAccepted cfg taxi fn)).length) ∧
    (∀ (cfg : TDriveCfg) (m : TStoreModel) (store : List TPoint)
        (lines : List String) (name : String),
       ∃ r log st2,
         tdrive_import_file cfg m store (.readable lines) name = .ok (r, log, st2) ∧
           log.status = .completed ∧ r.success = true) ∧
    ((tdrive_process_file {} failingStore 1000 [] twoGoodLines "1" "1.txt").1 =
       { total := 2, successful := 2, failed := 0 }) ∧
    ((tdrive_process_file {} failingStore 1000 [] twoGoodLines "1" "1.txt").2 = []) ∧
    (∃ r log, tdrive_import_file {} failingStore [] (.readable twoGoodLines) "1.txt" =
       .ok (r, log, []) ∧ log.status = .completed ∧ r.successful = 2) := by
  refine ⟨?_, ?_, by decide, by decide, ?_⟩
  · intro cfg m bs store lines taxi fn
    unfold tdrive_process_file
    rw [tdriveLoop_successful]
    simp
  · intro cfg m store lines name
    exact import_file_readable_ok cfg m store lines name
  · exact ⟨{ success := true, total_lines := 2, successful := 2, failed := 0 },
           { status := .completed, total_lines := some 2, successful_imports := 2,
             failed_imports := 0 },
           rfl, rfl, rfl⟩

-- C9: per-file isolation of TDriveImporter.import_directory

lemma honest_bulk_insert (store batch : List TPoint) :
    tdrive_bulk_insert_points honestStore store batch = store ++ batch := rfl

lemma tdriveInsertAllAux_honest :
    ∀ (fuel : ℕ) (store pts : List TPoint),
      tdriveInsertAllAux honestStore fuel store pts = store ++ pts := by
  intro fuel
  induction fuel with
  | zero =>
      intro store pts
      rcases pts with _ | ⟨p, rest⟩
      · simp [tdriveInsertAllAux]
      · simp [tdriveInsertAllAux, honest_bulk_insert]
  | succ n ih =>
      intro store pts
      rcases pts with _ | ⟨p, rest⟩
      · simp [tdriveInsertAllAux]
      · show tdriveInsertAllAux honestStore n
            (tdrive_bulk_insert_points honestStore store ((p :: rest).take 1000))
            ((p :: rest).drop 1000) = store ++ (p :: rest)
        rw [ih, honest_bulk_insert, List.append_assoc, List.take_append_drop]

lemma tdriveInsertAll_honest (store pts : List TPoint) :
    tdriveInsertAll honestStore store pts = store ++ pts :=
  tdriveInsertAllAux_honest pts.length store pts

lemma tdriveLoop_honest (cfg : TDriveCfg) (bs : ℕ) (taxi fn : String) :
    ∀ (lines : List String) (stats : TStats) (batch store : List TPoint),
      tdriveLoop cfg honestStore bs taxi fn lines stats batch store =
        ((tdriveLoop cfg honestStore bs taxi fn lines stats batch []).1,
         store ++ (tdriveLoop cfg honestStore bs taxi fn lines stats batch []).2) := by
  intro lines
  induction lines with
  | nil =>
      intro stats batch store
      unfold tdriveLoop
      by_cases hb : batch.isEmpty
      · rw [if_pos hb, if_pos hb]
        simp
      · rw [if_neg hb, if_neg hb]
        simp [honest_bulk_insert]
  | cons line rest ih =>
      intro stats batch store
      unfold tdriveLoop
      rcases hline : validate_and_parse_line cfg (csvRow line) taxi fn with p | t
      · simp only [hline]
        by_cases hfl : bs ≤ (batch ++ [p]).length
        · rw [if_pos hfl, if_pos hfl]
          rw [honest_bulk_insert, honest_bulk_insert]
          rw [ih _ [] (store ++ (batch ++ [p]))]
          rw [ih _ [] ([] ++ (batch ++ [p]))]
          simp
        · rw [if_neg hfl, if_neg hfl]
          exact ih _ (batch ++ [p]) store
      · simp only [hline]
        exact ih _ batch store

lemma tdrive_process_file_honest (cfg : TDriveCfg) (bs : ℕ)
    (store : List TPoint) (lines : List String) (taxi fn : String) :
    tdrive_process_file cfg honestStore bs store lines taxi fn =
      ((tdrive_process_file cfg honestStore bs [] lines taxi fn).1,
       store ++ (tdrive_process_file cfg honestStore bs [] lines taxi fn).2) := by
  unfold tdrive_process_file
  exact tdriveLoop_honest cfg bs taxi fn lines {} [] store

lemma tdrive_process_pandas_honest (cfg : TDriveCfg) (store : List TPoint)
    (rows : List PdRow) (taxi fn : String) :
    tdrive_process_pandas cfg honestStore store rows taxi fn =
      ((tdrive_process_pandas cfg honestStore [] rows taxi fn).1,
       store ++ (tdrive_process_pandas cfg honestStore [] rows taxi fn).2) := by
  unfold tdrive_process_pandas
  simp only [tdriveInsertAll_honest]
  simp

lemma import_file_honest_map (cfg : TDriveCfg) (store : List TPoint)
    (lines : List String) (name : String) :
    tdrive_import_file cfg honestStore store (.readable lines) name =
      Except.map (fun r => (r.1, r.2.1, store ++ r.2.2))
        (tdrive_import_file cfg honestStore [] (.readable lines) name) := by
  unfold tdrive_import_file
  rcases h : pandasRead lines with _ | rows <;> simp only [h]
  · rw [tdrive_process_file_honest cfg 1000 store lines (stemOf name) name]
    rw [tdrive_process_file_honest cfg 1000 [] lines (stemOf name) name]
    simp [Except.map]
  · rw [tdrive_process_pandas_honest cfg store rows (stemOf name) name]
    rw [tdrive_process_pandas_honest cfg [] rows (stemOf name) name]
    simp [Except.map]

lemma tdriveDirLoop_honest (cfg : TDriveCfg) :
    ∀ (files : List (String × TFileState)) (acc : TDirAcc) (store : List TPoint),
      (tdriveDirLoop cfg honestStore files acc store).1.successful_files =
        acc.successful_files + (files.filter (fun f => tdriveFileOk f.2)).length ∧
      (tdriveDirLoop cfg honestStore files acc store).1.failed_files =
        acc.failed_files + (files.filter (fun f => !(tdriveFileOk f.2))).length ∧
      (tdriveDirLoop cfg honestStore files acc store).2 =
        store ++ (files.map (fun f => tdriveFileDelta cfg f)).flatten := by
  intro files
  induction files with
  | nil =>
      intro acc store
      unfold tdriveDirLoop
      simp
  | cons f rest ih =>
      intro acc store
      rcases f with ⟨nm, fs⟩
      rcases fs with _ | _ | lines
      · unfold tdriveDirLoop
        have hmiss : tdrive_import_file cfg honestStore store .missing nm = .error () := rfl
        rw [hmiss]
        obtain ⟨i1, i2, i3⟩ := ih { acc with failed_files := acc.failed_files + 1 } store
        refine ⟨?_, ?_, ?_⟩
        · rw [i1]
          simp [tdriveFileOk, List.filter_cons]
        · rw [i2]
          simp [tdriveFileOk, List.filter_cons]
          omega
        · rw [i3]
          simp [tdriveFileDelta, tdriveFileOk]
          rfl
      · unfold tdriveDirLoop
        have hunr : tdrive_import_file cfg honestStore store .unreadable nm =
            .ok ({ success := false }, { status := .failed }, store) := rfl
        rw [hunr]
        simp only [Bool.false_eq_true, if_false]
        obtain ⟨i1, i2, i3⟩ := ih { acc with failed_files := acc.failed_files + 1 } store
        refine ⟨?_, ?_, ?_⟩
        · rw [i1]
          simp [tdriveFileOk, List.filter_cons]
        · rw [i2]
          simp [tdriveFileOk, List.filter_cons]
          omega
        · rw [i3]
          simp [tdriveFileDelta, tdriveFileOk]
          rfl
      · obtain ⟨r, log, st2, heq, hlog, hsucc⟩ :=
          import_file_readable_ok cfg honestStore [] lines nm
        have hmap := import_file_honest_map cfg store lines nm
        rw [heq] at hmap
        simp only [Except.map] at hmap
        have hdelta : tdriveFileDelta cfg (nm, .readable lines) = st2 := by
          simp [tdriveFileDelta, heq]
        unfold tdriveDirLoop
        rw [hmap]
        simp only [hsucc, if_true]
        obtain ⟨i1, i2, i3⟩ := ih
          { acc with successful_files := acc.successful_files + 1,
                     total_points := acc.total_points + r.successful,
                     failed_points := acc.failed_points + r.failed } (store ++ st2)
        refine ⟨?_, ?_, ?_⟩
        · rw [i1]
          simp [tdriveFileOk, List.filter_cons]
          omega
        · rw [i2]
          simp [tdriveFileOk, List.filter_cons]
        · rw [i3]
          simp [hdelta]

/-- C9 (amended).  `TDriveImporter.import_directory` attempts every
selected file and isolates per-file failures: with a healthy store,
`successful_files` counts exactly the readable files, `failed_files`
the missing/unreadable ones, and the final store is the initial store
followed by each selected file's own contribution in order — so a
failed file never suppresses a later file's points (witnessed
concretely by `dir3`, whose middle file is unreadable while files 1 and
3 contribute all three points).  `MobilityDataImporter.import_directory`
however attempts nothing: it unconditionally raises
`NotImplementedError`. -/
theorem tdrive_directory_isolation :
    (∀ (cfg : TDriveCfg) (files : List (String × TFileState)) (mf : Option ℕ)
        (store0 : List TPoint),
       (tdrive_import_directory cfg honestStore store0 files mf).1.total_files =
         (selectFiles files mf).length ∧
       (tdrive_import_directory cfg honestStore store0 files mf).1.successful_files =
         ((selectFiles files mf).filter (fun f => tdriveFileOk f.2)).length ∧
       (tdrive_import_directory cfg honestStore store0 files mf).1.failed_files =
         ((selectFiles files mf).filter (fun f => !(tdriveFileOk f.2))).length ∧
       (tdrive_import_directory cfg honestStore store0 files mf).2 =
         store0 ++ ((selectFiles files mf).map (fun f => tdriveFileDelta cfg f)).flatten) ∧
    (∀ (p : String) (c : Option (String × Option ℕ × Bool)),
       mobility_import_directory p c = .error .notImplementedError) ∧
    ((tdrive_import_directory {} honestStore [] dir3 none).1.successful_files = 2 ∧
     (tdrive_import_directory {} honestStore [] dir3 none).1.failed_files = 1 ∧
     ((tdrive_import_directory {} honestStore [] dir3 none).2.map (fun p => p.taxi_id)) =
       ["1", "3", "3"]) := by
  refine ⟨?_, fun p c => rfl, by decide, by decide, by decide⟩
  intro cfg files mf store0
  unfold tdrive_import_directory
  obtain ⟨i1, i2, i3⟩ := tdriveDirLoop_honest cfg (selectFiles files mf) {} store0
  exact ⟨rfl, by simpa using i1, by simpa using i2, by simpa using i3⟩

/-- C9 counterexample: the generic importer's `import_directory` raises
`NotImplementedError` for a concrete directory and configuration — it
attempts none of the files and returns no per-file counts, so the claim
as stated fails on `MobilityDataImporter.import_directory`. -/
theorem mobility_import_directory_unimplemented :
    mobility_import_directory "/data/tdrive" (some ("*.txt", none, false)) =
      .error .notImplementedError := rfl


end TAI
